import Mathlib

/-!
Verification development for the pantone-acb-viewer repository.

Shallow embedding conventions:
* Python `str` values are modelled as `List Char`; `bytes` as `List ℕ`
  (each element a byte value below 256).
* Python `float` arithmetic is modelled over `ℝ`; the built-in `round`
  (round half to even, returning an int) is `pyRound`.  Integer paths are
  modelled over `ℕ`/`ℤ`/`ℚ` and kept computable.
* Fallible code returns `Except`.
-/

namespace PantoneViewer

deriving instance DecidableEq for Except

/-! ## Python primitives -/

/-- Python `round(x)` on a float: round half to even, yielding an integer. -/
noncomputable def pyRound (x : ℝ) : ℤ :=
  if x - ⌊x⌋ < 1 / 2 then ⌊x⌋
  else if 1 / 2 < x - ⌊x⌋ then ⌊x⌋ + 1
  else if Even ⌊x⌋ then ⌊x⌋ else ⌊x⌋ + 1

/-- Python `round` on a rational value (used where the modelled arithmetic is
exact); round half to even. -/
def pyRoundQ (x : ℚ) : ℤ :=
  if x - ⌊x⌋ < 1 / 2 then ⌊x⌋
  else if 1 / 2 < x - ⌊x⌋ then ⌊x⌋ + 1
  else if Even ⌊x⌋ then ⌊x⌋ else ⌊x⌋ + 1

/-- Characters stripped by Python `str.strip()` (whitespace; the Latin-1
range adds U+0085 and U+00A0). -/
def isPySpace (c : Char) : Bool :=
  c = ' ' || c = '\t' || c = '\n' || c = '\x0d' || c = '\x0b' || c = '\x0c'
    || c = '\x85' || c = '\xa0'

/-- Python `str.strip()` over the character-list model. -/
def pyStrip (s : List Char) : List Char :=
  ((s.dropWhile isPySpace).reverse.dropWhile isPySpace).reverse

/-- Python `str.upper()` restricted to the ASCII range (all strings the
claims exercise are ASCII). -/
def pyUpperChar (c : Char) : Char :=
  if 'a' ≤ c ∧ c ≤ 'z' then Char.ofNat (c.toNat - 32) else c

def pyUpper (s : List Char) : List Char := s.map pyUpperChar

/-! ## color_convert.py -/

namespace ColorConvert

/-- Python `clamp8(value)` from color_convert.py: `max(0, min(255, int(round(value))))`. -/
noncomputable def clamp8 (value : ℝ) : ℤ :=
  max 0 (min 255 (pyRound value))

/-- Nat-valued clamp, for code paths whose inputs are nonnegative integers
(`clamp8_natCast` justifies the agreement with `clamp8`). -/
def clamp8N (n : ℕ) : ℕ := min 255 n

/-- Uppercase hexadecimal digit (the `%X` format). -/
def hexDigitU (n : ℕ) : Char :=
  match n with
  | 0 => '0' | 1 => '1' | 2 => '2' | 3 => '3' | 4 => '4'
  | 5 => '5' | 6 => '6' | 7 => '7' | 8 => '8' | 9 => '9'
  | 10 => 'A' | 11 => 'B' | 12 => 'C' | 13 => 'D' | 14 => 'E'
  | _ => 'F'

/-- Python `%02X` of a byte value. -/
def byteHexU (n : ℕ) : List Char := [hexDigitU (n / 16), hexDigitU (n % 16)]

/-- Python `rgb_to_hex(rgb)` on integer components:
`f"#{clamp8(r):02X}{clamp8(g):02X}{clamp8(b):02X}"`. -/
def rgb_to_hex (rgb : ℕ × ℕ × ℕ) : List Char :=
  '#' :: byteHexU (clamp8N rgb.1) ++ byteHexU (clamp8N rgb.2.1)
    ++ byteHexU (clamp8N rgb.2.2)

/-- Membership in `"0123456789ABCDEF"` (the check in `hex_to_rgb`, applied
after upper-casing). -/
def isHexU (c : Char) : Bool :=
  ('0' ≤ c && c ≤ '9') || ('A' ≤ c && c ≤ 'F')

/-- The regex class `[0-9a-fA-F]` from `parse_color_input`. -/
def isHexAny (c : Char) : Bool :=
  ('0' ≤ c && c ≤ '9') || ('A' ≤ c && c ≤ 'F') || ('a' ≤ c && c ≤ 'f')

/-- Value of one uppercase hex digit (`int(_, 16)` after validation). -/
def hexValU (c : Char) : ℕ :=
  if '0' ≤ c ∧ c ≤ '9' then c.toNat - '0'.toNat
  else c.toNat - 'A'.toNat + 10

inductive ColorError where
  | invalidHex
  | emptyQuery
  | unsupportedFormat
  deriving DecidableEq, Repr

/-- Python `hex_to_rgb(value)` from color_convert.py. -/
def hex_to_rgb (value : List Char) : Except ColorError (ℕ × ℕ × ℕ) :=
  let normalized0 := pyUpper (pyStrip value)
  let normalized1 :=
    match normalized0 with
    | '#' :: rest => rest
    | l => l
  let normalized :=
    if normalized1.length = 3 ∧ normalized1.all isHexU then
      normalized1.flatMap (fun c => [c, c])
    else normalized1
  if normalized.length ≠ 6 ∨ ¬ (normalized.all isHexU) then
    .error .invalidHex
  else
    match normalized with
    | [a, b, c, d, e, f] =>
        .ok (hexValU a * 16 + hexValU b, hexValU c * 16 + hexValU d,
          hexValU e * 16 + hexValU f)
    | _ => .error .invalidHex

/-- Python `parse_color_input(value)` from color_convert.py, hex branch.  The
`rgb()`, `hsl()` and `cmyk()` branches (which parse decimal component
strings via Python `float`) are not modelled and are mapped to the
function's final `unsupportedFormat` error; every claim exercises only hex
inputs, which take the first branch exactly as in the source. -/
def parse_color_input (value : List Char) : Except ColorError (ℕ × ℕ × ℕ) :=
  let text := pyStrip value
  if text.isEmpty then .error .emptyQuery
  else if text.head? = some '#' ∨
      (3 ≤ text.length ∧ text.length ≤ 6 ∧ text.all isHexAny) then
    hex_to_rgb text
  else .error .unsupportedFormat

/-! Real-valued conversion pipeline (Python float arithmetic modelled
over `ℝ`). -/

/-- Python `math.radians`. -/
noncomputable def radians (x : ℝ) : ℝ := x * Real.pi / 180

/-- Python `math.degrees`. -/
noncomputable def degrees (x : ℝ) : ℝ := x * 180 / Real.pi

/-- Python `math.atan2(y, x)`. -/
noncomputable def atan2 (y x : ℝ) : ℝ :=
  if 0 < x then Real.arctan (y / x)
  else if x < 0 then
    (if 0 ≤ y then Real.arctan (y / x) + Real.pi
     else Real.arctan (y / x) - Real.pi)
  else (if 0 < y then Real.pi / 2 else if y < 0 then -(Real.pi / 2) else 0)

/-- Python `cmyk_to_rgb(c, m, y, k)` (fractions clamped into `[0,1]`); the
result bytes are the nonnegative `clamp8` values. -/
noncomputable def cmyk_to_rgb (c m y k : ℝ) : ℕ × ℕ × ℕ :=
  let c := max 0 (min 1 c)
  let m := max 0 (min 1 m)
  let y := max 0 (min 1 y)
  let k := max 0 (min 1 k)
  let r := 255 * (1 - c) * (1 - k)
  let g := 255 * (1 - m) * (1 - k)
  let b := 255 * (1 - y) * (1 - k)
  ((clamp8 r).toNat, (clamp8 g).toNat, (clamp8 b).toNat)

/-- Python `cmyk_bytes_to_rgb(c, m, y, k)`. -/
noncomputable def cmyk_bytes_to_rgb (c m y k : ℕ) : ℕ × ℕ × ℕ :=
  cmyk_to_rgb ((255 - (c : ℝ)) / 255) ((255 - (m : ℝ)) / 255)
    ((255 - (y : ℝ)) / 255) ((255 - (k : ℝ)) / 255)

/-- Python `lab_to_xyz_d50`. -/
noncomputable def lab_to_xyz_d50 (lv av bv : ℝ) : ℝ × ℝ × ℝ :=
  let epsilon : ℝ := 216 / 24389
  let kappa : ℝ := 24389 / 27
  let fy := (lv + 16) / 116
  let fx := fy + av / 500
  let fz := fy - bv / 200
  let fInv := fun (t : ℝ) =>
    if epsilon < t * t * t then t * t * t else (116 * t - 16) / kappa
  (0.9642 * fInv fx, 1.0 * fInv fy, 0.8251 * fInv fz)

/-- Python `adapt_xyz_d65_to_d50` (Bradford matrix as in the source). -/
noncomputable def adapt_xyz_d65_to_d50 (x y z : ℝ) : ℝ × ℝ × ℝ :=
  (1.0478112 * x + 0.0228866 * y + (-0.0501270) * z,
   0.0295424 * x + 0.9904844 * y + (-0.0170491) * z,
   (-0.0092345) * x + 0.0150436 * y + 0.7521316 * z)

/-- Python `adapt_xyz_d50_to_d65`. -/
noncomputable def adapt_xyz_d50_to_d65 (x y z : ℝ) : ℝ × ℝ × ℝ :=
  (0.9555766 * x + (-0.0230393) * y + 0.0631636 * z,
   (-0.0282895) * x + 1.0099416 * y + 0.0210077 * z,
   0.0122982 * x + (-0.0204830) * y + 1.3299098 * z)

/-- Python `xyz_to_srgb(x, y, z)` with the sRGB gamma encoding. -/
noncomputable def xyz_to_srgb (x y z : ℝ) : ℕ × ℕ × ℕ :=
  let rLin := 3.2404542 * x + (-1.5371385) * y + (-0.4985314) * z
  let gLin := (-0.9692660) * x + 1.8760108 * y + 0.0415560 * z
  let bLin := 0.0556434 * x + (-0.2040259) * y + 1.0572252 * z
  let gammaEncode := fun (channel : ℝ) =>
    if channel ≤ 0 then 0
    else if channel ≤ 0.0031308 then 12.92 * channel
    else 1.055 * channel ^ ((1 : ℝ) / 2.4) - 0.055
  ((clamp8 (gammaEncode rLin * 255)).toNat,
   (clamp8 (gammaEncode gLin * 255)).toNat,
   (clamp8 (gammaEncode bLin * 255)).toNat)

/-- Python `srgb_to_xyz_d65(rgb)` (the integer inputs pass through `clamp8`). -/
noncomputable def srgb_to_xyz_d65 (rgb : ℕ × ℕ × ℕ) : ℝ × ℝ × ℝ :=
  let invGamma := fun (channel : ℝ) =>
    if channel ≤ 0.04045 then channel / 12.92
    else ((channel + 0.055) / 1.055) ^ ((2.4 : ℝ))
  let r := invGamma ((clamp8N rgb.1 : ℝ) / 255)
  let g := invGamma ((clamp8N rgb.2.1 : ℝ) / 255)
  let b := invGamma ((clamp8N rgb.2.2 : ℝ) / 255)
  (0.4124564 * r + 0.3575761 * g + 0.1804375 * b,
   0.2126729 * r + 0.7151522 * g + 0.0721750 * b,
   0.0193339 * r + 0.1191920 * g + 0.9503041 * b)

/-- Python `_xyz_to_lab` with a selectable reference white. -/
noncomputable def xyzToLab (x y z xRef yRef zRef : ℝ) : ℝ × ℝ × ℝ :=
  let xr := x / xRef
  let yr := y / yRef
  let zr := z / zRef
  let epsilon : ℝ := 216 / 24389
  let kappa : ℝ := 24389 / 27
  let f := fun (t : ℝ) =>
    if epsilon < t then t ^ ((1 : ℝ) / 3) else (kappa * t + 16) / 116
  let fx := f xr
  let fy := f yr
  let fz := f zr
  (max 0 (116 * fy - 16), 500 * (fx - fy), 200 * (fy - fz))

/-- Python `xyz_to_lab_d50`. -/
noncomputable def xyz_to_lab_d50 (x y z : ℝ) : ℝ × ℝ × ℝ :=
  xyzToLab x y z 0.9642 1.0 0.8251

/-- Python `xyz_to_lab_d65`. -/
noncomputable def xyz_to_lab_d65 (x y z : ℝ) : ℝ × ℝ × ℝ :=
  xyzToLab x y z 0.95047 1.0 1.08883

/-- Python `rgb_to_lab_d65`. -/
noncomputable def rgb_to_lab_d65 (rgb : ℕ × ℕ × ℕ) : ℝ × ℝ × ℝ :=
  let xyz := srgb_to_xyz_d65 rgb
  xyz_to_lab_d65 xyz.1 xyz.2.1 xyz.2.2

/-- Python `rgb_to_lab_d50`. -/
noncomputable def rgb_to_lab_d50 (rgb : ℕ × ℕ × ℕ) : ℝ × ℝ × ℝ :=
  let xyz := srgb_to_xyz_d65 rgb
  let d50 := adapt_xyz_d65_to_d50 xyz.1 xyz.2.1 xyz.2.2
  xyz_to_lab_d50 d50.1 d50.2.1 d50.2.2

/-- Python `lab_to_rgb`. -/
noncomputable def lab_to_rgb (lv av bv : ℝ) : ℕ × ℕ × ℕ :=
  let d50 := lab_to_xyz_d50 lv av bv
  let d65 := adapt_xyz_d50_to_d65 d50.1 d50.2.1 d50.2.2
  xyz_to_srgb d65.1 d65.2.1 d65.2.2

/-- Python `lab_bytes_to_rgb`. -/
noncomputable def lab_bytes_to_rgb (lByte aByte bByte : ℕ) : ℕ × ℕ × ℕ :=
  lab_to_rgb ((lByte : ℝ) / 255 * 100) ((aByte : ℝ) - 128) ((bByte : ℝ) - 128)

/-- Python `gray_to_rgb`. -/
noncomputable def gray_to_rgb (gray : ℝ) : ℕ × ℕ × ℕ :=
  let value := (clamp8 (max 0 (min 1 gray) * 255)).toNat
  (value, value, value)

/-- The inner `hue` helper of `delta_e_ciede2000`. -/
noncomputable def hueOf (ap bb : ℝ) : ℝ :=
  if ap = 0 ∧ bb = 0 then 0
  else
    let h := degrees (atan2 bb ap)
    if h < 0 then h + 360 else h

/-- Python `delta_e_ciede2000(lab1, lab2)`, the full Sharma-style formulation with
`kL = kC = kH = 1`, translated term by term from color_convert.py. -/
noncomputable def delta_e_ciede2000 (lab1 lab2 : ℝ × ℝ × ℝ) : ℝ :=
  let l1 := lab1.1; let a1 := lab1.2.1; let b1 := lab1.2.2
  let l2 := lab2.1; let a2 := lab2.2.1; let b2 := lab2.2.2
  let c1 := Real.sqrt (a1 * a1 + b1 * b1)
  let c2 := Real.sqrt (a2 * a2 + b2 * b2)
  let cMean := (c1 + c2) / 2
  let c7 := cMean ^ (7 : ℕ)
  let g := 0.5 * (1 - Real.sqrt (c7 / (c7 + (25 : ℝ) ^ (7 : ℕ) + 1e-12)))
  let a1p := (1 + g) * a1
  let a2p := (1 + g) * a2
  let c1p := Real.sqrt (a1p * a1p + b1 * b1)
  let c2p := Real.sqrt (a2p * a2p + b2 * b2)
  let h1p := hueOf a1p b1
  let h2p := hueOf a2p b2
  let dlp := l2 - l1
  let dcp := c2p - c1p
  let dhp :=
    if c1p * c2p ≠ 0 then
      (if |h2p - h1p| ≤ 180 then h2p - h1p
       else if h2p ≤ h1p then h2p - h1p + 360
       else h2p - h1p - 360)
    else 0
  let dhpRad := radians (dhp / 2)
  let dhpTerm := 2 * Real.sqrt (c1p * c2p) * Real.sin dhpRad
  let lpm := (l1 + l2) / 2
  let cpm := (c1p + c2p) / 2
  let hpm :=
    if c1p * c2p ≠ 0 then
      (if 180 < |h1p - h2p| then
        (if h1p + h2p < 360 then (h1p + h2p + 360) / 2
         else (h1p + h2p - 360) / 2)
       else (h1p + h2p) / 2)
    else h1p + h2p
  let t := 1 - 0.17 * Real.cos (radians (hpm - 30))
      + 0.24 * Real.cos (radians (2 * hpm))
      + 0.32 * Real.cos (radians (3 * hpm + 6))
      - 0.20 * Real.cos (radians (4 * hpm - 63))
  let sl := 1 + (0.015 * (lpm - 50) ^ (2 : ℕ))
      / Real.sqrt (20 + (lpm - 50) ^ (2 : ℕ))
  let sc := 1 + 0.045 * cpm
  let sh := 1 + 0.015 * cpm * t
  let dt := 30 * Real.exp (-(((hpm - 275) / 25) ^ (2 : ℕ)))
  let rc := 2 * Real.sqrt ((cpm ^ (7 : ℕ))
      / (cpm ^ (7 : ℕ) + (25 : ℝ) ^ (7 : ℕ) + 1e-12))
  let rt := -(Real.sin (radians (2 * dt))) * rc
  let kl : ℝ := 1
  let kc : ℝ := 1
  let kh : ℝ := 1
  let dl := dlp / (kl * sl)
  let dc := dcp / (kc * sc)
  let dh := dhpTerm / (kh * sh)
  Real.sqrt (dl * dl + dc * dc + dh * dh + rt * dc * dh)

/-- Python `reliability_label(delta_e)`. -/
noncomputable def reliability_label (deltaE : ℝ) : List Char :=
  if deltaE ≤ 1 then "Excelente".data
  else if deltaE ≤ 2.5 then "Bueno".data
  else "Dudoso".data

end ColorConvert

/-! ## acb_parser.py -/

namespace Acb

/-- Python `ByteReader` from acb_parser.py: the raw bytes plus a cursor. -/
structure Reader where
  data : List ℕ
  pos : ℕ
  deriving DecidableEq, Repr

/-- Python `ByteReader.remaining()`. -/
def Reader.remaining (rd : Reader) : ℕ := rd.data.length - rd.pos

/-- Parse errors of both binary parsers, carried structurally (the source
formats them into `source:offset:context` strings; no claim inspects the
text).  The ASE parser shares `ByteReader`, so its EOF errors are the same
values; `attributeErrorReadF32` models the Python `AttributeError` raised
because `ByteReader` defines no `read_f32`, and `typeErrorBookFormat` the
`TypeError` raised by the `Book(…, format="ASE")` construction at the end
of `parse_ase_bytes` (`Book` has no `format` field and several required
fields are missing there). -/
inductive Err where
  | eof (context : List Char) (pos : ℕ)
  | badSignature
  | unsupportedColorspace (n : ℕ)
  | aseBadSignature
  | aseUnsupportedModel (model : List Char)
  | attributeErrorReadF32
  | typeErrorBookFormat
  deriving DecidableEq, Repr

/-- Python `ByteReader.read_bytes(size, context)`. -/
def readBytes (rd : Reader) (size : ℕ) (context : List Char) :
    Except Err (List ℕ × Reader) :=
  if rd.remaining < size then .error (.eof context rd.pos)
  else .ok ((rd.data.drop rd.pos).take size, ⟨rd.data, rd.pos + size⟩)

/-- Python `int.from_bytes(chunk, "big")`. -/
def bytesToNatBE (l : List ℕ) : ℕ := l.foldl (fun acc b => acc * 256 + b) 0

/-- Python `ByteReader.read_u16(context)`. -/
def readU16 (rd : Reader) (context : List Char) : Except Err (ℕ × Reader) :=
  (readBytes rd 2 context).map (fun p => (bytesToNatBE p.1, p.2))

/-- Python `ByteReader.read_u32(context)`. -/
def readU32 (rd : Reader) (context : List Char) : Except Err (ℕ × Reader) :=
  (readBytes rd 4 context).map (fun p => (bytesToNatBE p.1, p.2))

/-- Python `ByteReader.peek_u32(offset)`. -/
def peekU32 (rd : Reader) (offset : ℕ) : Option ℕ :=
  if rd.pos + offset + 4 ≤ rd.data.length then
    some (bytesToNatBE ((rd.data.drop (rd.pos + offset)).take 4))
  else none

/-- UTF-16BE code units of a byte string (pairs, big-endian).  Decoded
Python strings are modelled as their code-unit lists; surrogate
recombination and `errors="replace"` substitution affect only which
characters the units render as, never emptiness or byte consumption. -/
def utf16beUnits : List ℕ → List ℕ
  | hi :: lo :: rest => (hi * 256 + lo) :: utf16beUnits rest
  | _ => []

/-- Python `str.rstrip("\x00")` on the code-unit model. -/
def rstripNul (units : List ℕ) : List ℕ :=
  (units.reverse.dropWhile (· = 0)).reverse

/-- Python `read_pascal_utf16be_string(reader, context)`: a `u32` character
count, then `2·count` bytes, decoded and null-trimmed. -/
def read_pascal_utf16be_string (rd : Reader) (context : List Char) :
    Except Err (List ℕ × Reader) :=
  match readU32 rd context with
  | .error e => .error e
  | .ok (lengthChars, rd1) =>
    if lengthChars = 0 then .ok ([], rd1)
    else
      match readBytes rd1 (lengthChars * 2) context with
      | .error e => .error e
      | .ok (raw, rd2) => .ok (rstripNul (utf16beUnits raw), rd2)

/-- Python `bytes.decode("latin-1")` (Latin-1 is the first 256 code points). -/
def decodeLatin1 (bytes : List ℕ) : List Char := bytes.map Char.ofNat

structure ColorRecord where
  name : List ℕ
  code : List Char
  hex : List Char
  deriving DecidableEq, Repr

/-- Python `Book` from acb_parser.py (`prefix` is a Lean keyword, hence
`prefixName`). -/
structure Book where
  version : ℕ
  bookId : ℕ
  title : List ℕ
  prefixName : List ℕ
  suffix : List ℕ
  description : List ℕ
  colorCount : ℕ
  pageSize : ℕ
  pageSelectorOffset : ℕ
  colorspace : ℕ
  colorspaceName : List Char
  colors : List ColorRecord
  filename : List Char := []
  deriving DecidableEq

/-- Python `COLORSPACE_LABELS.get(colorspace, f"Unknown({colorspace})")`. -/
def colorspaceLabel (n : ℕ) : List Char :=
  if n = 0 then "RGB".data
  else if n = 2 then "CMYK".data
  else if n = 7 then "Lab".data
  else "Unknown(".data ++ (toString n).data ++ ")".data

/-- Python `_looks_like_next_record(reader, offset)`. -/
def looksLikeNextRecord (rd : Reader) (offset : ℕ) : Bool :=
  match peekU32 rd offset with
  | none => false
  | some nameLength =>
    if nameLength = 0 then decide (4 ≤ rd.remaining - offset)
    else if 32768 < nameLength then false
    else decide (4 + nameLength * 2 ≤ rd.remaining - offset)

/-- The spec's wording of a plausible next-name length at a peek offset:
some `u32` value at most `32768` with enough bytes remaining after the
offset to hold the length prefix plus `2·length` name bytes. -/
def plausibleNextName (rd : Reader) (offset : ℕ) : Prop :=
  ∃ v, peekU32 rd offset = some v ∧ v ≤ 32768 ∧
    4 + 2 * v ≤ rd.remaining - offset

/-- Python `_consume_optional_spot_identifier(reader, remaining_records)`; the
`read_bytes(8, …)` is guarded by `remaining() >= 8`, so it reduces to the
cursor advance. -/
def consumeOptionalSpotIdentifier (rd : Reader) (remainingRecords : ℕ) :
    Reader :=
  if remainingRecords = 0 then rd
  else if looksLikeNextRecord rd 0 then rd
  else if 8 ≤ rd.remaining ∧ looksLikeNextRecord rd 8 then
    { rd with pos := rd.pos + 8 }
  else rd

/-- The per-record component read of `parse_acb_bytes` (the unreachable
non-exact-length match arms fall back to `(0,0,0)`; `read_bytes` returns
exactly the requested number of bytes on success). -/
noncomputable def readComponents (colorspace : ℕ) (rd : Reader) :
    Except Err ((ℕ × ℕ × ℕ) × Reader) :=
  if colorspace = 0 then
    match readBytes rd 3 "RGB components".data with
    | .error e => .error e
    | .ok (bytes, rd1) =>
      match bytes with
      | [r, g, b] => .ok ((r, g, b), rd1)
      | _ => .ok ((0, 0, 0), rd1)
  else if colorspace = 2 then
    match readBytes rd 4 "CMYK components".data with
    | .error e => .error e
    | .ok (bytes, rd1) =>
      match bytes with
      | [c, m, y, k] => .ok (ColorConvert.cmyk_bytes_to_rgb c m y k, rd1)
      | _ => .ok ((0, 0, 0), rd1)
  else if colorspace = 7 then
    match readBytes rd 3 "Lab components".data with
    | .error e => .error e
    | .ok (bytes, rd1) =>
      match bytes with
      | [lb, ab, bb] => .ok (ColorConvert.lab_bytes_to_rgb lb ab bb, rd1)
      | _ => .ok ((0, 0, 0), rd1)
  else .error (.unsupportedColorspace colorspace)

/-- The record loop of `parse_acb_bytes`, by recursion on the number of
records still to process (`left`); when a record is present, the
`remaining_records` argument of the trailer consumer is
`color_count - index - 1`, which equals the tail count.  The second
component instruments the number of skipped placeholder records (the
source keeps no counter; the count does not influence anything else). -/
noncomputable def parseRecords (colorspace : ℕ) :
    ℕ → Reader → Except Err (List ColorRecord × ℕ × Reader)
  | 0, rd => .ok ([], 0, rd)
  | l + 1, rd =>
    match read_pascal_utf16be_string rd "record name".data with
    | .error e => .error e
    | .ok (name, rd1) =>
      if name = [] then
        match parseRecords colorspace l rd1 with
        | .error e => .error e
        | .ok (colors, skipped, rdF) => .ok (colors, skipped + 1, rdF)
      else
        match readBytes rd1 6 "record color code".data with
        | .error e => .error e
        | .ok (codeRaw, rd2) =>
          match readComponents colorspace rd2 with
          | .error e => .error e
          | .ok (rgb, rd3) =>
            match parseRecords colorspace l
                (consumeOptionalSpotIdentifier rd3 l) with
            | .error e => .error e
            | .ok (colors, skipped, rdF) =>
              .ok (⟨name, pyStrip (decodeLatin1 codeRaw),
                ColorConvert.rgb_to_hex rgb⟩ :: colors, skipped, rdF)

/-- Python `parse_acb_bytes(data)`, paired with the instrumented count of
skipped placeholder records. -/
noncomputable def parse_acb_bytes (data : List ℕ) :
    Except Err (Book × ℕ) :=
  match readBytes ⟨data, 0⟩ 4 "signature".data with
  | .error e => .error e
  | .ok (sig, rd1) =>
    if sig ≠ [0x38, 0x42, 0x43, 0x42] then .error .badSignature
    else
      match readU16 rd1 "version".data with
      | .error e => .error e
      | .ok (version, rd2) =>
        match readU16 rd2 "book id".data with
        | .error e => .error e
        | .ok (bookId, rd3) =>
          match read_pascal_utf16be_string rd3 "title".data with
          | .error e => .error e
          | .ok (title, rd4) =>
            match read_pascal_utf16be_string rd4 "prefix".data with
            | .error e => .error e
            | .ok (prefixName, rd5) =>
              match read_pascal_utf16be_string rd5 "suffix".data with
              | .error e => .error e
              | .ok (suffix, rd6) =>
                match read_pascal_utf16be_string rd6 "description".data with
                | .error e => .error e
                | .ok (description, rd7) =>
                  match readU16 rd7 "color count".data with
                  | .error e => .error e
                  | .ok (colorCount, rd8) =>
                    match readU16 rd8 "page size".data with
                    | .error e => .error e
                    | .ok (pageSize, rd9) =>
                      match readU16 rd9 "page selector offset".data with
                      | .error e => .error e
                      | .ok (pageSelectorOffset, rd10) =>
                        match readU16 rd10
                            "colorspace/library identifier".data with
                        | .error e => .error e
                        | .ok (colorspace, rd11) =>
                          match parseRecords colorspace colorCount rd11 with
                          | .error e => .error e
                          | .ok (colors, skipped, _) =>
                            .ok (⟨version, bookId, title, prefixName,
                              suffix, description, colorCount, pageSize,
                              pageSelectorOffset, colorspace,
                              colorspaceLabel colorspace, colors, []⟩,
                              skipped)

end Acb

/-! ## ase_parser.py

The ASE parser imports `ByteReader`, `Book` and `ColorRecord` from
acb_parser.py, so the reader model and error type are shared. -/

namespace Ase

/-- Python `_read_ase_string(reader, context)`: `u16` character count, then
`2·count` UTF-16BE bytes, null-trimmed (code-unit model as for ACB). -/
def read_ase_string (rd : Acb.Reader) (context : List Char) :
    Except Acb.Err (List ℕ × Acb.Reader) :=
  match Acb.readU16 rd context with
  | .error e => .error e
  | .ok (length, rd1) =>
    if length = 0 then .ok ([], rd1)
    else
      match Acb.readBytes rd1 (length * 2) context with
      | .error e => .error e
      | .ok (raw, rd2) => .ok (Acb.rstripNul (Acb.utf16beUnits raw), rd2)

/-- Python `bytes.decode("ascii", errors="replace")`. -/
def decodeAsciiReplace (bytes : List ℕ) : List Char :=
  bytes.map (fun b => if b < 128 then Char.ofNat b else Char.ofNat 0xFFFD)

/-- Python `_format_color_code(model_key, color_type)`. -/
def formatColorCode (modelKey : List Char) (colorType : ℕ) : List Char :=
  modelKey ++ "/".data ++
    (if colorType = 0 then "global".data
     else if colorType = 1 then "spot".data
     else if colorType = 2 then "process".data
     else (toString colorType).data)

/-- Python `_read_ase_rgb(block_reader, model_key, …)`: every supported model
immediately calls `block_reader.read_f32(…)`, but `ByteReader` (imported
from acb_parser.py) defines no `read_f32` method, so Python raises
`AttributeError` before reading anything; an unsupported model raises
`ASEParseError`. -/
def read_ase_rgb (modelKey : List Char) (_rd : Acb.Reader) :
    Except Acb.Err ((ℕ × ℕ × ℕ) × Acb.Reader) :=
  if modelKey = "RGB".data ∨ modelKey = "CMYK".data ∨
      modelKey = "LAB".data ∨ modelKey = "GRAY".data then
    .error .attributeErrorReadF32
  else .error (.aseUnsupportedModel modelKey)

/-- ASCII code units of a literal string (for display-name assembly). -/
def strUnits (s : String) : List ℕ := s.data.map Char.toNat

/-- The block loop of `parse_ase_bytes`, by recursion on the number of
blocks left.  The group stack is modelled with its top at the head
(Python appends and reads `[-1]`).  `models_seen` is kept as an
insertion-ordered duplicate-free list. -/
def parseBlocks : ℕ → Acb.Reader → List (List ℕ) → List (List Char) →
    List Acb.ColorRecord →
    Except Acb.Err (List Acb.ColorRecord × List (List Char))
  | 0, _, _, models, colors => .ok (colors, models)
  | l + 1, rd, stack, models, colors =>
    match Acb.readU16 rd "block type".data with
    | .error e => .error e
    | .ok (blockType, rd1) =>
      match Acb.readU32 rd1 "block length".data with
      | .error e => .error e
      | .ok (blockLength, rd2) =>
        match Acb.readBytes rd2 blockLength "block payload".data with
        | .error e => .error e
        | .ok (payload, rd3) =>
          if blockType = 0xC001 then
            match read_ase_string ⟨payload, 0⟩ "group name".data with
            | .error e => .error e
            | .ok (groupName, _) =>
              parseBlocks l rd3
                (if groupName ≠ [] then groupName :: stack else stack)
                models colors
          else if blockType = 0xC002 then
            parseBlocks l rd3 stack.tail models colors
          else if blockType ≠ 0x0001 then
            parseBlocks l rd3 stack models colors
          else
            match read_ase_string ⟨payload, 0⟩ "color name".data with
            | .error e => .error e
            | .ok (colorName, br1) =>
              if colorName = [] then parseBlocks l rd3 stack models colors
              else
                match Acb.readBytes br1 4 "color model".data with
                | .error e => .error e
                | .ok (modelRaw, br2) =>
                  let modelKey := pyUpper (pyStrip (decodeAsciiReplace modelRaw))
                  let models' :=
                    if modelKey ∈ models then models else models ++ [modelKey]
                  match read_ase_rgb modelKey br2 with
                  | .error e => .error e
                  | .ok (rgb, br3) =>
                    match
                      (if 2 ≤ br3.remaining then
                        match Acb.readU16 br3 "color type".data with
                        | .error e => .error e
                        | .ok (colorType, br4) => .ok (colorType, br4)
                      else .ok (2, br3) :
                        Except Acb.Err (ℕ × Acb.Reader)) with
                    | .error e => .error e
                    | .ok (colorType, _) =>
                      let code := formatColorCode modelKey colorType
                      let displayName :=
                        match stack with
                        | [] => colorName
                        | g :: _ =>
                          colorName ++ strUnits " [" ++ g ++ strUnits "]"
                      parseBlocks l rd3 stack models'
                        (colors ++ [⟨displayName, code,
                          ColorConvert.rgb_to_hex rgb⟩])

/-- Python `parse_ase_bytes(data)`.  If the loop completes, the source reaches
`Book(version=…, title="", description=…, color_count=…,
colorspace_name=…, colors=…, format="ASE")`, which raises `TypeError`
(`Book` has no `format` field, and `book_id`, `prefix`, `suffix`,
`page_size`, `page_selector_offset`, `colorspace` have no defaults), so
no input parses successfully. -/
def parse_ase_bytes (data : List ℕ) : Except Acb.Err Acb.Book :=
  match Acb.readBytes ⟨data, 0⟩ 4 "signature".data with
  | .error e => .error e
  | .ok (sig, rd1) =>
    if sig ≠ [0x41, 0x53, 0x45, 0x46] then .error .aseBadSignature
    else
      match Acb.readU16 rd1 "version major".data with
      | .error e => .error e
      | .ok (_, rd2) =>
        match Acb.readU16 rd2 "version minor".data with
        | .error e => .error e
        | .ok (_, rd3) =>
          match Acb.readU32 rd3 "block count".data with
          | .error e => .error e
          | .ok (blockCount, rd4) =>
            match parseBlocks blockCount rd4 [] [] [] with
            | .error e => .error e
            | .ok _ => .error .typeErrorBookFormat

end Ase

/-! ## psd_suggester.py: the summary aggregation of
`suggest_from_file_bytes` (claim C3).  The claim quantifies over the
sequence of input layers and their per-cluster `nearest_in_book` results,
so the aggregation is embedded as a function of that sequence. -/

namespace Suggester

/-- The identity fields of a `nearest_in_book` result that
`_pantone_key` reads (`book_id`, `name`, `hex`). -/
structure Pantone where
  bookId : List Char
  name : List Char
  hex : List Char
  deriving DecidableEq, Repr

/-- Python `_pantone_key(pantone)`. -/
def pantoneKey (p : Pantone) : List Char :=
  p.bookId ++ "::".data ++ p.name ++ "::".data ++ p.hex

/-- One value of `summary_by_pantone`. -/
structure SummaryItem where
  pantone : Pantone
  occurrences : ℕ
  layers : List (List Char)
  deriving DecidableEq, Repr

/-- Python dict lookup on the insertion-ordered association-list model. -/
def findItem : List (List Char × SummaryItem) → List Char → Option SummaryItem
  | [], _ => none
  | (k, item) :: rest, key => if k = key then some item else findItem rest key

/-- The per-cluster summary update of `suggest_from_file_bytes`: a new
key is appended with `occurrences = 1` and `layers = [layer_name]`; an
existing key gets `occurrences += 1` and the layer name appended if not
already present. -/
def summaryUpdate (acc : List (List Char × SummaryItem)) (layerName : List Char)
    (p : Pantone) : List (List Char × SummaryItem) :=
  match acc with
  | [] => [(pantoneKey p, ⟨p, 1, [layerName]⟩)]
  | (k, item) :: rest =>
    if k = pantoneKey p then
      (k, ⟨item.pantone, item.occurrences + 1,
        if layerName ∈ item.layers then item.layers
        else item.layers ++ [layerName]⟩) :: rest
    else (k, item) :: summaryUpdate rest layerName p

/-- The per-layer summary pass (clusters in order). -/
def summarizeLayer (acc : List (List Char × SummaryItem)) (layerName : List Char)
    (ps : List Pantone) : List (List Char × SummaryItem) :=
  ps.foldl (fun a q => summaryUpdate a layerName q) acc

/-- The whole summary aggregation over the layer sequence (layers whose
cluster list is empty are skipped by `continue`; they contribute
nothing). -/
def buildSummary (layers : List (List Char × List Pantone)) :
    List (List Char × SummaryItem) :=
  layers.foldl
    (fun acc l => if l.2 = [] then acc else summarizeLayer acc l.1 l.2) []

/-! `_extract_dominant_clusters` and `_noise_profile`.  A raster is a
list of pixel rows (RGBA, byte components); alpha weighting is exact
rational arithmetic, thresholds and ratios from the noise profile are
reals.  The PIL downscale branch (`w·h > 220_000`, external bilinear
resize) is not modelled: every raster the claims evaluate is far below
the cap, where the source takes the no-resize path. -/

/-- Python `_normalize_noise(noise)`. -/
noncomputable def _normalize_noise (x : ℝ) : ℝ := max 0 (min 100 x)

/-- Python `_normalize_max_colors(max_colors)`. -/
def _normalize_max_colors (x : ℤ) : ℤ := max 0 (min 15 x)

/-- Python `_noise_profile(noise)`: `(auto_max_colors, merge_threshold
(squared), min_cluster_ratio, quant_shift)` with
`detail = (noise/100)^1.15`. -/
noncomputable def _noise_profile (noise : ℝ) : ℤ × ℝ × ℝ × ℤ :=
  let n := _normalize_noise noise / 100
  let detail := n ^ (1.15 : ℝ)
  let maxColors := pyRound (2 + detail * 22)
  let similar := 22 - detail * 18
  let minRatio := 0.24 - detail * 0.232
  let quantShift := pyRound ((1 - detail) * 3)
  (maxColors, similar * similar * 3, max 0.003 minRatio, max 0 quantShift)

/-- One histogram bin value: `[Σw, Σr·w, Σg·w, Σb·w]`. -/
structure BinVal where
  w : ℚ
  r : ℚ
  g : ℚ
  b : ℚ
  deriving DecidableEq, Repr

/-- In-place accumulation into an insertion-ordered histogram. -/
def binUpdate (bins : List ((ℕ × ℕ × ℕ) × BinVal)) (key : ℕ × ℕ × ℕ)
    (w : ℚ) (r g b : ℕ) : List ((ℕ × ℕ × ℕ) × BinVal) :=
  match bins with
  | [] => [(key, ⟨w, r * w, g * w, b * w⟩)]
  | (k, v) :: rest =>
    if k = key then
      (k, ⟨v.w + w, v.r + r * w, v.g + g * w, v.b + b * w⟩) :: rest
    else (k, v) :: binUpdate rest key w r g b

/-- One pixel of the scan in `_extract_dominant_clusters`: skip pixels
with `alpha < 16`, key by the shifted channels, weight by `alpha/255`;
border pixels (outermost row or column) also feed the border
histogram. -/
def pixelStep (shift width height y x : ℕ) (px : ℕ × ℕ × ℕ × ℕ)
    (acc : List ((ℕ × ℕ × ℕ) × BinVal) × List ((ℕ × ℕ × ℕ) × BinVal)) :
    List ((ℕ × ℕ × ℕ) × BinVal) × List ((ℕ × ℕ × ℕ) × BinVal) :=
  match px with
  | (r, g, b, a) =>
    if a < 16 then acc
    else
      let key := (r >>> shift, g >>> shift, b >>> shift)
      let w : ℚ := (a : ℚ) / 255
      (binUpdate acc.1 key w r g b,
        if x = 0 ∨ y = 0 ∨ x = width - 1 ∨ y = height - 1 then
          binUpdate acc.2 key w r g b
        else acc.2)

/-- The inner `for x in range(width)` loop over one pixel row. -/
def rowStep (shift width height y : ℕ) : ℕ → List (ℕ × ℕ × ℕ × ℕ) →
    List ((ℕ × ℕ × ℕ) × BinVal) × List ((ℕ × ℕ × ℕ) × BinVal) →
    List ((ℕ × ℕ × ℕ) × BinVal) × List ((ℕ × ℕ × ℕ) × BinVal)
  | _, [], acc => acc
  | x, px :: rest, acc =>
    rowStep shift width height y (x + 1) rest
      (pixelStep shift width height y x px acc)

/-- The outer `for y in range(height)` loop. -/
def rasterStep (shift width height : ℕ) :
    ℕ → List (List (ℕ × ℕ × ℕ × ℕ)) →
    List ((ℕ × ℕ × ℕ) × BinVal) × List ((ℕ × ℕ × ℕ) × BinVal) →
    List ((ℕ × ℕ × ℕ) × BinVal) × List ((ℕ × ℕ × ℕ) × BinVal)
  | _, [], acc => acc
  | y, row :: rest, acc =>
    rasterStep shift width height (y + 1) rest
      (rowStep shift width height y 0 row acc)

/-- The full pixel scan of `_extract_dominant_clusters` over a
rectangular raster (every row has the width of the first). -/
def histOfRaster (shift : ℕ) (raster : List (List (ℕ × ℕ × ℕ × ℕ))) :
    List ((ℕ × ℕ × ℕ) × BinVal) × List ((ℕ × ℕ × ℕ) × BinVal) :=
  rasterStep shift (raster.headD []).length raster.length 0 raster ([], [])

/-- A raw or merged cluster (`{weight, rgb}`). -/
structure QCluster where
  weight : ℚ
  rgb : ℤ × ℤ × ℤ
  deriving DecidableEq, Repr

/-- A cluster with its share of the total weight. -/
structure RatioCluster where
  weight : ℚ
  rgb : ℤ × ℤ × ℤ
  ratio : ℚ
  deriving DecidableEq, Repr

/-- Collapse bins to centroid clusters (`int(round(Σc·w / Σw))`),
skipping empty weights. -/
def rawClusters (bins : List ((ℕ × ℕ × ℕ) × BinVal)) : List QCluster :=
  bins.filterMap (fun kv =>
    if kv.2.w ≤ 0 then none
    else some ⟨kv.2.w, (pyRoundQ (kv.2.r / kv.2.w), pyRoundQ (kv.2.g / kv.2.w),
      pyRoundQ (kv.2.b / kv.2.w))⟩)

/-- Stable insertion into a descending run (an element moves past only
strictly lighter clusters), modelling Python's stable
`sort(key=weight, reverse=True)`. -/
def insertDesc (x : QCluster) : List QCluster → List QCluster
  | [] => [x]
  | y :: ys => if x.weight ≥ y.weight then x :: y :: ys else y :: insertDesc x ys

def sortDesc : List QCluster → List QCluster
  | [] => []
  | x :: xs => insertDesc x (sortDesc xs)

/-- Python `_rgb_distance2` on centroid triples. -/
def rgbDist2 (l r : ℤ × ℤ × ℤ) : ℤ :=
  (l.1 - r.1) * (l.1 - r.1) + (l.2.1 - r.2.1) * (l.2.1 - r.2.1) +
    (l.2.2 - r.2.2) * (l.2.2 - r.2.2)

/-- Fold one cluster into the first existing cluster within the merge
threshold (weights add, the representative rgb is kept), else append. -/
noncomputable def foldMerge (dist2T : ℝ) : List QCluster → QCluster →
    List QCluster
  | [], c => [c]
  | e :: es, c =>
    if ((rgbDist2 e.rgb c.rgb : ℤ) : ℝ) ≤ dist2T then
      ⟨e.weight + c.weight, e.rgb⟩ :: es
    else e :: foldMerge dist2T es c

noncomputable def mergeAll (dist2T : ℝ) (raw : List QCluster) :
    List QCluster :=
  raw.foldl (foldMerge dist2T) []

/-- Python `_dominant_border_color(border__bins)`: weighted centroid of the
heaviest border bin (first strict maximum) and its share of the border
weight. -/
def dominantBorderColor (borderBins : List ((ℕ × ℕ × ℕ) × BinVal)) :
    Option (ℤ × ℤ × ℤ) × ℚ :=
  let positives := borderBins.filter (fun kv => decide (0 < kv.2.w))
  let total := (positives.map (fun kv => kv.2.w)).sum
  let dominant := positives.foldl
    (fun best kv =>
      match best with
      | none => some kv.2
      | some b => if b.w < kv.2.w then some kv.2 else best) none
  match dominant with
  | none => (none, 0)
  | some v =>
    if total ≤ 0 then (none, 0)
    else
      ((some (pyRoundQ (v.r / v.w), pyRoundQ (v.g / v.w),
        pyRoundQ (v.b / v.w))), v.w / total)

/-- Python `_remove_background_cluster(clusters, border_rgb, border_ratio,
similar_rgb_distance2)`. -/
noncomputable def removeBackgroundCluster (clusters : List RatioCluster)
    (borderRgb : Option (ℤ × ℤ × ℤ)) (borderRatio : ℚ)
    (similarRgbDistance2 : ℝ) : List RatioCluster :=
  match clusters with
  | [] => []
  | top :: rest =>
    match borderRgb with
    | none => top :: rest
    | some brgb =>
      if top.ratio < 9 / 10 then top :: rest
      else if borderRatio < 8 / 10 then top :: rest
      else
        let tolerance := max 120 (similarRgbDistance2 * 2)
        if tolerance < ((rgbDist2 top.rgb brgb : ℤ) : ℝ) then top :: rest
        else if rest ≠ [] then rest
        else []

/-- The list comprehension `[item for item in with_ratio if
float(item["ratio"]) >= min_cluster_ratio]`. -/
noncomputable def ratioFilter (minRatio : ℝ) : List RatioCluster →
    List RatioCluster
  | [] => []
  | c :: cs =>
    if minRatio ≤ ((c.ratio : ℚ) : ℝ) then c :: ratioFilter minRatio cs
    else ratioFilter minRatio cs

/-- The post-profile pipeline of `_extract_dominant_clusters`: histogram,
centroid collapse, weight-descending stable sorts, greedy merge, ratio
computation, optional background suppression, ratio filter with
keep-largest fallback, and the cap truncation. -/
noncomputable def extractCore (dist2T minRatio : ℝ) (shift : ℕ)
    (effCap : ℤ) (ignoreBackground : Bool)
    (raster : List (List (ℕ × ℕ × ℕ × ℕ))) : List QCluster :=
  let hist := histOfRaster shift raster
  if hist.1 = [] then []
  else
    let raw := sortDesc (rawClusters hist.1)
    let merged := sortDesc (mergeAll dist2T raw)
    let total := (merged.map (fun c => c.weight)).sum
    if total ≤ 0 then []
    else
      let withRatio : List RatioCluster :=
        merged.map (fun c => ⟨c.weight, c.rgb, c.weight / total⟩)
      let border := dominantBorderColor hist.2
      let afterBg :=
        if ignoreBackground then
          removeBackgroundCluster withRatio border.1 border.2 dist2T
        else withRatio
      if ignoreBackground ∧ afterBg = [] then []
      else
        let filtered := ratioFilter minRatio afterBg
        let filtered2 := if filtered = [] then afterBg.take 1 else filtered
        (filtered2.take effCap.toNat).map (fun c => ⟨c.weight, c.rgb⟩)

/-- Python `_extract_dominant_clusters(image, noise, ignore_background,
max_colors)` for rasters below the 220 000-pixel downscale cap. -/
noncomputable def extractDominantClusters (noise : ℝ)
    (ignoreBackground : Bool) (maxColors : ℤ)
    (raster : List (List (ℕ × ℕ × ℕ × ℕ))) : List QCluster :=
  let profile := _noise_profile noise
  let maxColorsValue := _normalize_max_colors maxColors
  let effCap := if 0 < maxColorsValue then maxColorsValue else profile.1
  extractCore profile.2.1 profile.2.2.1 profile.2.2.2.toNat effCap
    ignoreBackground raster

/-- A 11×3 opaque raster: 31 black pixels plus one `(40,0,0)` and one
`(51,0,0)` pixel at the end of the last row. -/
def rasterC8 : List (List (ℕ × ℕ × ℕ × ℕ)) :=
  [[(0, 0, 0, 255), (0, 0, 0, 255), (0, 0, 0, 255), (0, 0, 0, 255),
    (0, 0, 0, 255), (0, 0, 0, 255), (0, 0, 0, 255), (0, 0, 0, 255),
    (0, 0, 0, 255), (0, 0, 0, 255), (0, 0, 0, 255)],
   [(0, 0, 0, 255), (0, 0, 0, 255), (0, 0, 0, 255), (0, 0, 0, 255),
    (0, 0, 0, 255), (0, 0, 0, 255), (0, 0, 0, 255), (0, 0, 0, 255),
    (0, 0, 0, 255), (0, 0, 0, 255), (0, 0, 0, 255)],
   [(0, 0, 0, 255), (0, 0, 0, 255), (0, 0, 0, 255), (0, 0, 0, 255),
    (0, 0, 0, 255), (0, 0, 0, 255), (0, 0, 0, 255), (0, 0, 0, 255),
    (0, 0, 0, 255), (40, 0, 0, 255), (51, 0, 0, 255)]]

/-- The histogram `rasterC8` produces at `quant_shift = 0`. -/
def binsC8 : List ((ℕ × ℕ × ℕ) × BinVal) :=
  [((0, 0, 0), ⟨31, 0, 0, 0⟩), ((40, 0, 0), ⟨1, 40, 0, 0⟩),
    ((51, 0, 0), ⟨1, 51, 0, 0⟩)]

/-- The border histogram `rasterC8` produces at `quant_shift = 0`. -/
def borderC8 : List ((ℕ × ℕ × ℕ) × BinVal) :=
  [((0, 0, 0), ⟨22, 0, 0, 0⟩), ((40, 0, 0), ⟨1, 40, 0, 0⟩),
    ((51, 0, 0), ⟨1, 51, 0, 0⟩)]

/-- The `occurrences` stored for a key (0 when absent). -/
def occOf (acc : List (List Char × SummaryItem)) (key : List Char) : ℕ :=
  match findItem acc key with
  | none => 0
  | some it => it.occurrences

/-- Every stored item's deduplicated layer list is no longer than its
occurrence counter. -/
def GoodLen (acc : List (List Char × SummaryItem)) : Prop :=
  ∀ key it, findItem acc key = some it → it.layers.length ≤ it.occurrences

end Suggester

/-! ## repository.py: `search_by_hex` and its helpers.

State model: the repository's catalog (after `_refresh_id_map` and
`_load_cached`, which are filesystem I/O) is a list of entries, one per
`(book_id, path)` pair in insertion order, carrying the cache fields the
search reads: the parse error, the parsed book's colors and the on-disk
expert index's colors.  The usage-score dict is a total function with
default 0 (all reads go through `.get(key, 0)`). -/

namespace Repo

inductive Mode where
  | normal
  | expert
  deriving DecidableEq, Repr

/-- Python `_usage_key(book_id, name)`. -/
def usage_key (bookId name : List Char) : List Char :=
  bookId ++ "::".data ++ name

/-- Python `str(x)` on an optional string (`str(None)` is `"None"`). -/
def strOfOpt : Option (List Char) → List Char
  | some s => s
  | none => "None".data

/-- Hex-digit value as `int(_, 16)` reads it (upper or lower case). -/
def hexValAny (c : Char) : ℕ :=
  if '0' ≤ c ∧ c ≤ '9' then c.toNat - 48
  else if 'A' ≤ c ∧ c ≤ 'F' then c.toNat - 65 + 10
  else if 'a' ≤ c ∧ c ≤ 'f' then c.toNat - 97 + 10
  else 0

/-- Python `_hex_to_rgb(value)` from repository.py: `value.lstrip("#")` then
`int(value[0:2], 16)` etc.  The source performs no validation and raises
`ValueError` on malformed input; the fallback arm (value 0) stands for
that unreached case — every claim feeds it `#RRGGBB` strings produced by
`rgb_to_hex`. -/
def _hex_to_rgb (value : List Char) : ℕ × ℕ × ℕ :=
  match value.dropWhile (· = '#') with
  | a :: b :: c :: d :: e :: f :: _ =>
    (hexValAny a * 16 + hexValAny b, hexValAny c * 16 + hexValAny d,
     hexValAny e * 16 + hexValAny f)
  | _ => (0, 0, 0)

/-- Python `_rgb_distance(left, right)` (sum of squared channel differences). -/
def _rgb_distance (l r : ℕ × ℕ × ℕ) : ℤ :=
  ((l.1 : ℤ) - r.1) * ((l.1 : ℤ) - r.1) +
  ((l.2.1 : ℤ) - r.2.1) * ((l.2.1 : ℤ) - r.2.1) +
  ((l.2.2 : ℤ) - r.2.2) * ((l.2.2 : ℤ) - r.2.2)

/-- Python `FIXED_ACHROMATIC_BY_HEX.get(hex)`. -/
def fixedAchromaticName (hex : List Char) : Option (List Char) :=
  if hex = "#FFFFFF".data then some "BLANCO".data
  else if hex = "#000000".data then some "NEGRO".data
  else none

/-- The common fields of a result item dict. -/
structure Item where
  bookId : Option (List Char)
  bookTitle : List Char
  filename : List Char
  name : List Char
  code : Option (List Char)
  hex : List Char
  deriving DecidableEq, Repr

/-- The expert-mode extension fields a result dict may carry
(`delta_e`, `reliability`, `score`, `reason`), each present or not. -/
structure Meta where
  deltaE : Option ℝ
  reliability : Option (List Char)
  score : Option ℝ
  reason : Option (List Char)

/-- An entry of the `nearest`/`top5` lists: an item plus its merged
`distance` (absent on the probable-achromatic `top5` entry) and the
expert fields. -/
structure Ranked where
  base : Item
  distance : Option ℤ
  meta : Meta

def noMeta : Meta := ⟨none, none, none, none⟩

/-- A color as stored in a parsed book, as far as the search reads it
(`color.name`, `color.code`, `color.hex`). -/
structure RepoColor where
  name : List Char
  code : List Char
  hex : List Char
  deriving DecidableEq, Repr

/-- A color of the on-disk expert index JSON (fields the search reads;
each may be absent or null, the `or`-fallbacks below supply defaults). -/
structure ExpertColor where
  name : List Char
  code : Option (List Char)
  hex : List Char
  rgb : Option (ℕ × ℕ × ℕ)
  labD50 : Option (ℝ × ℝ × ℝ)

/-- One catalog entry: identity fields from the path plus the cache
fields `error`, `book` (its colors) and `expert_index` (its colors;
`none` models a missing or falsy index). -/
structure Entry where
  id : List Char
  stem : List Char
  filename : List Char
  error : Option (List Char)
  book : Option (List RepoColor)
  expertIndex : Option (List ExpertColor)

/-- The identity fields of an entry (book id, path stem, file name) —
everything the forced-achromatic path can depend on. -/
def shapeOf (e : Entry) : List Char × List Char × List Char :=
  (e.id, e.stem, e.filename)

/-- The usage-score dict (`.get(key, 0)` semantics). -/
def Usage : Type := List Char → ℕ

inductive SearchError where
  | invalidColor (e : ColorConvert.ColorError)
  | bookNotFound (id : List Char)

/-- Python `_resolve_book_scope(book_id)`: a truthy book id selects that single
book (dict lookup; `KeyError` when absent), otherwise all books in
catalog order. -/
def resolveScope (catalog : List Entry) (bookId : Option (List Char)) :
    Except SearchError (List Entry) :=
  match bookId with
  | some id =>
    if id = [] then .ok catalog
    else
      match catalog.find? (fun e => e.id = id) with
      | none => .error (.bookNotFound id)
      | some e => .ok [e]
  | none => .ok catalog

/-- The `scope_label` of `search_by_hex` (single book: its stem; else
`"Todas las paletas (N)"`). -/
def scopeLabelOf (s : List Entry) : List Char :=
  match s with
  | [e] => e.stem
  | _ => "Todas las paletas (".data ++ (toString s.length).data ++ ")".data

/-- The `scope_book_id` of `search_by_hex`. -/
def scopeIdOf (s : List Entry) : Option (List Char) :=
  match s with
  | [e] => some e.id
  | _ => none

/-- The scope title passed to the achromatic helpers. -/
def scopeTitleOf (s : List Entry) : List Char :=
  match s with
  | [e] => e.stem
  | _ => "Coincidencia fija".data

/-- The scope filename passed to the achromatic helpers. -/
def scopeFilenameOf (s : List Entry) : List Char :=
  match s with
  | [e] => e.filename
  | _ => []

/-- Python `_forced_achromatic_item_from_hex(normalized_hex, …)`. -/
def forcedAchromaticItemFromHex (normalizedHex : List Char)
    (scopeBookId : Option (List Char)) (scopeBookTitle scopeFilename : List Char) :
    Option Item :=
  match fixedAchromaticName (pyUpper normalizedHex) with
  | none => none
  | some nm =>
    some ⟨scopeBookId, scopeBookTitle, scopeFilename, nm, none,
      pyUpper normalizedHex⟩

/-- Python `round(x, 3)` on a float, modelled exactly at 3 decimal digits (the
binary-representation wobble of CPython's `round(float, 3)` is not
modelled; no claim reads these values). -/
noncomputable def pyRound3 (x : ℝ) : ℝ := (pyRound (x * 1000) : ℝ) / 1000

/-- The probable-achromatic item of `_detect_probable_achromatic`: the
item dict carries `delta_e` and `reliability` alongside the base
fields. -/
structure ProbItem where
  base : Item
  deltaE : ℝ
  reliability : List Char

/-- Python `_detect_probable_achromatic(target_rgb, …)`. -/
noncomputable def detectProbableAchromatic (targetRgb : ℕ × ℕ × ℕ)
    (thresholdWhite thresholdBlack : ℝ) (scopeBookId : Option (List Char))
    (scopeBookTitle scopeFilename : List Char) : Option ProbItem :=
  let labTarget := ColorConvert.rgb_to_lab_d50 targetRgb
  let labWhite := ColorConvert.rgb_to_lab_d50 (255, 255, 255)
  let labBlack := ColorConvert.rgb_to_lab_d50 (0, 0, 0)
  let deWhite := ColorConvert.delta_e_ciede2000 labTarget labWhite
  let deBlack := ColorConvert.delta_e_ciede2000 labTarget labBlack
  if deWhite ≤ thresholdWhite then
    some ⟨⟨scopeBookId, scopeBookTitle, scopeFilename,
      "BLANCO probable".data, none, "#FFFFFF".data⟩,
      pyRound3 deWhite, ColorConvert.reliability_label deWhite⟩
  else if deBlack ≤ thresholdBlack then
    some ⟨⟨scopeBookId, scopeBookTitle, scopeFilename,
      "NEGRO probable".data, none, "#000000".data⟩,
      pyRound3 deBlack, ColorConvert.reliability_label deBlack⟩
  else none

/-- A scanned color, unified over the two sources (expert-index colors
vs. colors derived from the parsed book). -/
structure Cand where
  name : List Char
  code : Option (List Char)
  hex : List Char
  rgb : Option (ℕ × ℕ × ℕ)
  labD50 : Option (ℝ × ℝ × ℝ)

/-- Python `x or None` on an optional string (empty string is falsy). -/
def orNone : Option (List Char) → Option (List Char)
  | some [] => none
  | x => x

/-- The `colors` list the scan iterates for one entry: the expert-index
colors in expert mode when the index is truthy, else the dicts derived
from the parsed book's colors. -/
noncomputable def candsOfEntry (mode : Mode) (e : Entry) : List Cand :=
  match mode, e.expertIndex with
  | .expert, some cols =>
    cols.map (fun c => ⟨c.name, c.code, c.hex, c.rgb, c.labD50⟩)
  | _, _ =>
    (e.book.getD []).map (fun c =>
      ⟨c.name, if c.code = [] then none else some c.code, c.hex,
        some (_hex_to_rgb c.hex),
        some (ColorConvert.rgb_to_lab_d50 (_hex_to_rgb c.hex))⟩)

/-- A `(score, delta_e, distance, item)` row of the `nearest`
accumulator. -/
structure Row where
  score : ℝ
  de : ℝ
  distance : ℤ
  item : Item

/-- The per-color row computation of the scan loop (score `=
delta_e + rarity_penalty - usage_bonus`, computed identically in both
modes). -/
noncomputable def rowOf (usage : Usage) (targetRgb : ℕ × ℕ × ℕ)
    (targetLab : ℝ × ℝ × ℝ) (e : Entry) (c : Cand) : Row :=
  let item : Item := ⟨some e.id, e.stem, e.filename, c.name, orNone c.code,
    c.hex⟩
  let rgb := c.rgb.getD (_hex_to_rgb c.hex)
  let lab := c.labD50.getD (ColorConvert.rgb_to_lab_d50 rgb)
  let distance := _rgb_distance targetRgb rgb
  let de := ColorConvert.delta_e_ciede2000 targetLab lab
  let rarityPenalty : ℝ := if c.code = none ∨ c.code = some [] then 0.2 else 0
  let usageBonus : ℝ := min 2 ((usage (usage_key e.id c.name) : ℝ) * 0.05)
  ⟨de + rarityPenalty - usageBonus, de, distance, item⟩

/-- The entries the scan actually visits (`if entry.error or entry.book
is None: continue`). -/
def liveEntries (scopedBooks : List Entry) : List Entry :=
  scopedBooks.filter (fun e => e.error = none ∧ e.book.isSome)

/-- All scan rows over the scopedBooks books, in visit order. -/
noncomputable def allRows (scopedBooks : List Entry) (mode : Mode) (usage : Usage)
    (targetRgb : ℕ × ℕ × ℕ) (targetLab : ℝ × ℝ × ℝ) : List Row :=
  (liveEntries scopedBooks).flatMap (fun e =>
    (candsOfEntry mode e).map (rowOf usage targetRgb targetLab e))

/-- The exact matches collected by the scan (`hex.upper() ==
normalized_hex`), in visit order. -/
noncomputable def allExacts (scopedBooks : List Entry) (mode : Mode)
    (normalizedHex : List Char) : List Item :=
  (liveEntries scopedBooks).flatMap (fun e =>
    (candsOfEntry mode e).filterMap (fun c =>
      if pyUpper c.hex = normalizedHex then
        some ⟨some e.id, e.stem, e.filename, c.name, orNone c.code, c.hex⟩
      else none))

/-- Stable insertion into an ascending run (an element moves past only
strictly smaller keys), keyed by `key`. -/
noncomputable def insertAscBy (key : Row → ℝ) (x : Row) :
    List Row → List Row
  | [] => [x]
  | y :: ys => if key x ≤ key y then x :: y :: ys else y :: insertAscBy key x ys

/-- Stable ascending sort by `key`; Python's `list.sort(key=…)` is
stable, and the stable ascending ordering of a list is unique, so this
models it exactly. -/
noncomputable def sortAscBy (key : Row → ℝ) : List Row → List Row
  | [] => []
  | x :: xs => insertAscBy key x (sortAscBy key xs)

/-- Python `nearest.sort(key=lambda row: row[0])`: the sort key is the stored
score, in every mode. -/
noncomputable def sortRows (rows : List Row) : List Row :=
  sortAscBy (fun r => r.score) rows

/-- Modelled from the claim's words for normal mode: the ranking the
claim asserts, with `delta_e` alone as sort key; compared against the
source's `sortRows`. -/
noncomputable def claimNormalRanking (rows : List Row) (limit : ℕ) :
    List Row :=
  (sortAscBy (fun r => r.de) rows).take limit

/-- The spec's expert ranking score recomputed from a row's visible
fields: `delta_e + rarity_penalty − usage_bonus` with
`rarity_penalty = 0.2` iff the item has no code and
`usage_bonus = min(2.0, 0.05·usage_count)`. -/
noncomputable def spec_row_score (usage : Usage) (row : Row) : ℝ :=
  row.de + (if row.item.code = none then 0.2 else 0) -
    min 2 (0.05 * (usage (usage_key (strOfOpt row.item.bookId) row.item.name) : ℝ))

/-- The item-plus-distance (and expert fields) decoration applied to the
top `limit` rows. -/
noncomputable def toRanked (mode : Mode) (row : Row) : Ranked :=
  ⟨row.item, some (pyRound ((row.distance : ℤ) : ℝ)),
    if mode = .expert then
      ⟨some (pyRound3 row.de),
        some (ColorConvert.reliability_label row.de),
        some (pyRound3 row.score), none⟩
    else noMeta⟩

/-- Python `_build_reason(item)` (the `%.2f` decimal rendering is abstracted to
the scaled integer's digits; no claim reads reason strings). -/
noncomputable def fmt2 (x : ℝ) : List Char := (toString (pyRound (x * 100))).data

noncomputable def _build_reason (r : Ranked) : List Char :=
  let delta := (r.meta.deltaE).getD 999.0
  let reliability := (r.meta.reliability).getD "Dudoso".data
  let score := (r.meta.score).getD delta
  "ΔE=".data ++ fmt2 delta ++ ", fiabilidad=".data ++ reliability ++
    ", score=".data ++ fmt2 score

noncomputable def addReason (r : Ranked) : Ranked :=
  { r with meta := { r.meta with reason := some (_build_reason r) } }

/-- One usage-counter increment
(`self._usage_score[k] = self._usage_score.get(k, 0) + 1`). -/
def bumpUsage (usage : Usage) (key : List Char) : Usage :=
  fun k => if k = key then usage k + 1 else usage k

/-- The expert-mode increment loop over the top-5 items. -/
def foldIncr (usage : Usage) (items : List Ranked) : Usage :=
  items.foldl
    (fun u r => bumpUsage u (usage_key (strOfOpt r.base.bookId) r.base.name))
    usage

/-- The result payload of `search_by_hex` (mode-dependent keys modelled
as options). -/
structure Payload where
  query : List Char
  scope : List Char
  scopeBookId : Option (List Char)
  exactCount : ℕ
  exactMatches : List Item
  nearest : List Ranked
  inputRgb : Option (ℕ × ℕ × ℕ)
  top5 : Option (List Ranked)
  probableAchromatic : Bool

/-- The scan-and-rank stage of `search_by_hex` (repository.py lines
240–316): collect rows and exact matches over the scoped books, sort the
rows ascending by their stored score, take the limit, decorate, attach
reasons and increment usage counters for the top 5 in expert mode. -/
noncomputable def scanPayload (scopedBooks : List Entry) (mode : Mode)
    (usage : Usage) (targetRgb : ℕ × ℕ × ℕ) (targetLab : ℝ × ℝ × ℝ)
    (normalizedHex : List Char) (limit : ℕ) : Payload × Usage :=
  let rows := allRows scopedBooks mode usage targetRgb targetLab
  let exacts := allExacts scopedBooks mode normalizedHex
  let nearestItems := ((sortRows rows).take limit).map (toRanked mode)
  let top5 := nearestItems.take 5
  let reasoned := if mode = .expert then top5.map addReason else top5
  let nearestFinal :=
    if mode = .expert then reasoned ++ nearestItems.drop 5 else nearestItems
  let usageAfter := if mode = .expert then foldIncr usage reasoned else usage
  (⟨normalizedHex, scopeLabelOf scopedBooks, scopeIdOf scopedBooks,
    exacts.length, exacts.take limit, nearestFinal,
    (if mode = .expert then some targetRgb else none),
    (if mode = .expert then some reasoned else none),
    false⟩, usageAfter)

/-- Python `search_by_hex(query, book_id, limit, mode, thresholds,
achromatic_enabled)`, returning the payload and the usage dict after the
call.  Catalog refresh and cache loading are the given state; everything
else follows repository.py lines 176–316 step by step (in normal mode the
probable-achromatic detection result is computed when enabled but
unused, exactly as in the source). -/
noncomputable def search_by_hex (catalog : List Entry) (usage : Usage)
    (query : List Char) (bookId : Option (List Char)) (limit : ℕ)
    (mode : Mode) (thresholdWhite thresholdBlack : ℝ)
    (achromaticEnabled : Bool) : Except SearchError (Payload × Usage) :=
  match ColorConvert.parse_color_input query with
  | .error e => .error (.invalidColor e)
  | .ok targetRgb =>
    let normalizedHex := ColorConvert.rgb_to_hex targetRgb
    let targetLab := ColorConvert.rgb_to_lab_d50 targetRgb
    match resolveScope catalog bookId with
    | .error e => .error e
    | .ok scopedBooks =>
      let scopeLabel := scopeLabelOf scopedBooks
      let scopeBookId := scopeIdOf scopedBooks
      let scopeTitle := scopeTitleOf scopedBooks
      let scopeFilename := scopeFilenameOf scopedBooks
      match forcedAchromaticItemFromHex normalizedHex scopeBookId scopeTitle
          scopeFilename with
      | some forced =>
        .ok (⟨normalizedHex, scopeLabel, scopeBookId, 1, [forced],
          [⟨forced, some 0, noMeta⟩], none, none, false⟩, usage)
      | none =>
        let probable := if achromaticEnabled then
            detectProbableAchromatic targetRgb thresholdWhite thresholdBlack
              scopeBookId scopeTitle scopeFilename
          else none
        if mode = .expert then
          match probable with
          | some prob =>
            .ok (⟨normalizedHex, scopeLabel, scopeBookId, 0, [],
              [⟨prob.base, some 0,
                ⟨some prob.deltaE, some prob.reliability, none, none⟩⟩],
              some targetRgb,
              some [⟨prob.base, none,
                ⟨some prob.deltaE, some prob.reliability, none,
                  some "Color cercano a extremo acromatico configurado.".data⟩⟩],
              true⟩, usage)
          | none =>
            .ok (scanPayload scopedBooks mode usage targetRgb targetLab
              normalizedHex limit)
        else
          .ok (scanPayload scopedBooks mode usage targetRgb targetLab
            normalizedHex limit)

/-- The usage dict after a `search_by_hex` call (unchanged when the call
raises, since the increments are the last mutation). -/
noncomputable def searchUsageAfter (catalog : List Entry) (usage : Usage)
    (query : List Char) (bookId : Option (List Char)) (limit : ℕ)
    (mode : Mode) (thresholdWhite thresholdBlack : ℝ)
    (achromaticEnabled : Bool) : Usage :=
  match search_by_hex catalog usage query bookId limit mode thresholdWhite
      thresholdBlack achromaticEnabled with
  | .ok (_, u) => u
  | .error _ => usage

/-- The `top5` list of a successful search (empty when the key is absent
or the call raises). -/
noncomputable def searchTop5 (catalog : List Entry) (usage : Usage)
    (query : List Char) (bookId : Option (List Char)) (limit : ℕ)
    (mode : Mode) (thresholdWhite thresholdBlack : ℝ)
    (achromaticEnabled : Bool) : List Ranked :=
  match search_by_hex catalog usage query bookId limit mode thresholdWhite
      thresholdBlack achromaticEnabled with
  | .ok (p, _) => p.top5.getD []
  | .error _ => []

end Repo

/-! ## Helper lemmas about the primitive models -/

theorem pyRound_intCast (n : ℤ) : pyRound (n : ℝ) = n := by
  simp [pyRound]

theorem pyRound_eq_of_lt_half (x : ℝ) (n : ℤ) (h1 : (n : ℝ) ≤ x)
    (h2 : x < n + 1 / 2) : pyRound x = n := by
  have hf : ⌊x⌋ = n := by
    apply Int.floor_eq_iff.mpr
    constructor
    · exact h1
    · calc x < n + 1 / 2 := h2
        _ ≤ n + 1 := by norm_num
  unfold pyRound
  rw [hf]
  rw [if_pos (by linarith [h2])]

theorem pyRound_ge_floor (x : ℝ) : ⌊x⌋ ≤ pyRound x := by
  unfold pyRound
  split
  · exact le_refl _
  · split
    · omega
    · split
      · exact le_refl _
      · omega

theorem pyStrip_eq_self {s : List Char} (h : ∀ c ∈ s, isPySpace c = false) :
    pyStrip s = s := by
  have hdw : ∀ t : List Char, (∀ c ∈ t, isPySpace c = false) →
      t.dropWhile isPySpace = t := by
    intro t ht
    cases t with
    | nil => rfl
    | cons a l => simp [List.dropWhile_cons, ht a (by simp)]
  unfold pyStrip
  rw [hdw s h, hdw s.reverse (by intro c hc; exact h c (List.mem_reverse.mp hc)),
    List.reverse_reverse]

namespace ColorConvert

/-- On a nonnegative-integer input `clamp8` is `min 255`. -/
theorem clamp8_natCast (n : ℕ) : clamp8 (n : ℝ) = min 255 (n : ℤ) := by
  unfold clamp8
  rw [show ((n : ℝ)) = ((n : ℤ) : ℝ) by norm_num, pyRound_intCast]
  omega

end ColorConvert

/-- Exhaustive facts about the sixteen uppercase hex digits. -/
theorem hexDigitU_spec : ∀ d : ℕ, d < 16 →
    ColorConvert.isHexU (ColorConvert.hexDigitU d) = true ∧
    ColorConvert.hexValU (ColorConvert.hexDigitU d) = d ∧
    isPySpace (ColorConvert.hexDigitU d) = false ∧
    pyUpperChar (ColorConvert.hexDigitU d) = ColorConvert.hexDigitU d := by
  decide

namespace Acb

/-- On success the record loop processes exactly `left` records, each one
either stored or counted as skipped. -/
theorem parseRecords_length (colorspace : ℕ) : ∀ (l : ℕ) (rd : Reader)
    (colors : List ColorRecord) (skipped : ℕ) (rdF : Reader),
    parseRecords colorspace l rd = .ok (colors, skipped, rdF) →
    colors.length + skipped = l := by
  intro l
  induction l with
  | zero =>
    intro rd colors skipped rdF h
    unfold parseRecords at h
    cases h
    simp
  | succ l ih =>
    intro rd colors skipped rdF h
    unfold parseRecords at h
    split at h
    · cases h
    · rename_i heq
      split at h
      · split at h
        · cases h
        · rename_i hrec
          cases h
          have := ih _ _ _ _ hrec
          omega
      · split at h
        · cases h
        · split at h
          · cases h
          · split at h
            · cases h
            · rename_i hrec
              cases h
              have := ih _ _ _ _ hrec
              simp only [List.length_cons]
              omega

/-- The code's look-ahead predicate coincides with the spec's description
of a plausible next-name length (for a zero length the requirement
`4 + 2·0` bytes is exactly the code's `remaining ≥ 4` check). -/
theorem looksLikeNextRecord_iff (rd : Reader) (offset : ℕ) :
    looksLikeNextRecord rd offset = true ↔ plausibleNextName rd offset := by
  unfold looksLikeNextRecord plausibleNextName
  cases hpeek : peekU32 rd offset with
  | none => simp
  | some v =>
    simp only []
    constructor
    · intro h
      split at h
      · rename_i h0
        refine ⟨0, by rw [h0], by omega, ?_⟩
        simp only [decide_eq_true_eq] at h
        omega
      · split at h
        · exact absurd h (by simp)
        · rename_i h0 h1
          simp only [decide_eq_true_eq] at h
          refine ⟨v, rfl, by omega, by omega⟩
    · rintro ⟨w, hw, hle, hrem⟩
      injection hw with hvw
      subst hvw
      by_cases h0 : v = 0
      · rw [if_pos h0]
        simp only [decide_eq_true_eq]
        omega
      · rw [if_neg h0, if_neg (by omega)]
        simp only [decide_eq_true_eq]
        omega

end Acb

/-! ## Claim C9 -/

namespace Repo

/-- The scope presentation fields depend only on the identity shape of
the resolved scope. -/
theorem scopeFields_shape_eq (s1 s2 : List Entry)
    (h : s1.map shapeOf = s2.map shapeOf) :
    scopeLabelOf s1 = scopeLabelOf s2 ∧ scopeIdOf s1 = scopeIdOf s2 ∧
    scopeTitleOf s1 = scopeTitleOf s2 ∧
    scopeFilenameOf s1 = scopeFilenameOf s2 := by
  match s1, s2 with
  | [], [] => exact ⟨rfl, rfl, rfl, rfl⟩
  | [], b :: bs => simp at h
  | a :: as, [] => simp at h
  | [a], [b] =>
    simp only [List.map_cons, List.map_nil, List.cons.injEq, and_true] at h
    have h1 : a.id = b.id := congrArg Prod.fst h
    have h2 : a.stem = b.stem := congrArg (fun p => p.2.1) h
    have h3 : a.filename = b.filename := congrArg (fun p => p.2.2) h
    exact ⟨h2, congrArg some h1, h2, h3⟩
  | [a], b :: b2 :: bs => simp at h
  | a :: a2 :: as, [b] => simp at h
  | a :: a2 :: as, b :: b2 :: bs =>
    have hlen : (a :: a2 :: as).length = (b :: b2 :: bs).length := by
      have := congrArg List.length h
      simpa using this
    exact ⟨by unfold scopeLabelOf; rw [hlen], rfl, rfl, rfl⟩

end Repo

/-- C9: whenever the query parses to a color whose normalized hex is a
fixed achromatic (`#FFFFFF → BLANCO`, `#000000 → NEGRO`), `search_by_hex`
returns `exact_count 1` and the single synthetic match with distance 0 and
the looked-up name, leaves the usage map untouched, and the result depends
only on the identity shape (id, stem, filename) of the resolved scope —
for any catalog with the same shape and any usage map the payload is
identical, so no book's colors and no usage scores are consulted. -/
theorem C9_forced_achromatic
    (catalog : List Repo.Entry) (usage : Repo.Usage) (query : List Char)
    (bookScope : Option (List Char)) (limit : ℕ) (mode : Repo.Mode)
    (tw tb : ℝ) (aEn : Bool) (rgb : ℕ × ℕ × ℕ)
    (scopedBooks : List Repo.Entry) (nm : List Char)
    (hparse : ColorConvert.parse_color_input query = .ok rgb)
    (hfix : Repo.fixedAchromaticName
      (pyUpper (ColorConvert.rgb_to_hex rgb)) = some nm)
    (hscope : Repo.resolveScope catalog bookScope = .ok scopedBooks) :
    ∀ (catalog2 : List Repo.Entry) (usage2 : Repo.Usage)
      (scoped2 : List Repo.Entry),
      Repo.resolveScope catalog2 bookScope = .ok scoped2 →
      scoped2.map Repo.shapeOf = scopedBooks.map Repo.shapeOf →
      Repo.search_by_hex catalog2 usage2 query bookScope limit mode tw tb aEn =
        .ok (⟨ColorConvert.rgb_to_hex rgb, Repo.scopeLabelOf scopedBooks,
          Repo.scopeIdOf scopedBooks, 1,
          [⟨Repo.scopeIdOf scopedBooks, Repo.scopeTitleOf scopedBooks,
            Repo.scopeFilenameOf scopedBooks, nm, none,
            pyUpper (ColorConvert.rgb_to_hex rgb)⟩],
          [⟨⟨Repo.scopeIdOf scopedBooks, Repo.scopeTitleOf scopedBooks,
            Repo.scopeFilenameOf scopedBooks, nm, none,
            pyUpper (ColorConvert.rgb_to_hex rgb)⟩, some 0, Repo.noMeta⟩],
          none, none, false⟩, usage2) := by
  intro catalog2 usage2 scoped2 hscope2 hshape
  obtain ⟨hL, hI, hT, hF⟩ := Repo.scopeFields_shape_eq scoped2 scopedBooks hshape
  unfold Repo.search_by_hex
  simp only [hparse, hscope2]
  unfold Repo.forcedAchromaticItemFromHex
  simp only [hfix]
  rw [hL, hI, hT, hF]

/-- Witness for C9: query `"#FFF"` against an empty catalog returns the
synthetic BLANCO match with distance 0 and an unchanged usage map. -/
theorem C9_witness :
    Repo.search_by_hex [] (fun _ => 0) "#FFF".data none 200 .normal 2 2 true =
      .ok (⟨"#FFFFFF".data, "Todas las paletas (0)".data, none, 1,
        [⟨none, "Coincidencia fija".data, [], "BLANCO".data, none,
          "#FFFFFF".data⟩],
        [⟨⟨none, "Coincidencia fija".data, [], "BLANCO".data, none,
          "#FFFFFF".data⟩, some 0, Repo.noMeta⟩],
        none, none, false⟩, fun _ => 0) := by
  have h := C9_forced_achromatic [] (fun _ => 0) "#FFF".data none 200 .normal
    2 2 true (255, 255, 255) [] "BLANCO".data (by decide) (by decide) rfl
    [] (fun _ => 0) [] rfl rfl
  have e1 : ColorConvert.rgb_to_hex (255, 255, 255) = "#FFFFFF".data := by
    decide
  have e2 : pyUpper (ColorConvert.rgb_to_hex (255, 255, 255)) =
      "#FFFFFF".data := by decide
  rw [e2, e1] at h
  exact h

/-! ## Claim C5 -/

/-- C5: after the color bytes of a record, the parser consumes exactly 8
extra bytes iff the direct peek does not yield a plausible next-name
length while the peek at offset `+8` does; otherwise the position is
unchanged; and for the final record (no remaining records) nothing is
ever consumed. -/
theorem C5_trailer_consumption (rd : Acb.Reader) (k : ℕ) :
    (k = 0 → Acb.consumeOptionalSpotIdentifier rd k = rd) ∧
    (1 ≤ k →
      ((Acb.consumeOptionalSpotIdentifier rd k =
          { rd with pos := rd.pos + 8 } ↔
        (¬ Acb.plausibleNextName rd 0 ∧ Acb.plausibleNextName rd 8)) ∧
       (¬ (¬ Acb.plausibleNextName rd 0 ∧ Acb.plausibleNextName rd 8) →
        Acb.consumeOptionalSpotIdentifier rd k = rd))) := by
  constructor
  · intro hk
    subst hk
    simp [Acb.consumeOptionalSpotIdentifier]
  · intro hk
    have hk0 : k ≠ 0 := by omega
    have hrem8 : Acb.plausibleNextName rd 8 → 8 ≤ rd.remaining := by
      rintro ⟨v, hv, -, -⟩
      unfold Acb.peekU32 at hv
      split at hv
      · rename_i hle
        unfold Acb.Reader.remaining
        omega
      · cases hv
    constructor
    · constructor
      · intro h
        unfold Acb.consumeOptionalSpotIdentifier at h
        rw [if_neg hk0] at h
        split at h
        · rename_i hl
          exact absurd (congrArg Acb.Reader.pos h) (by simp)
        · rename_i hl
          split at h
          · rename_i hcond
            exact ⟨fun hp => by
                rw [(Acb.looksLikeNextRecord_iff rd 0).mpr hp] at hl
                exact hl rfl,
              (Acb.looksLikeNextRecord_iff rd 8).mp hcond.2⟩
          · exact absurd (congrArg Acb.Reader.pos h) (by simp)
      · rintro ⟨hn0, hp8⟩
        unfold Acb.consumeOptionalSpotIdentifier
        rw [if_neg hk0]
        rw [if_neg (fun hl => hn0 ((Acb.looksLikeNextRecord_iff rd 0).mp hl))]
        rw [if_pos ⟨hrem8 hp8, (Acb.looksLikeNextRecord_iff rd 8).mpr hp8⟩]
    · intro hne
      unfold Acb.consumeOptionalSpotIdentifier
      rw [if_neg hk0]
      split
      · rfl
      · rename_i hl0
        rw [if_neg ?_]
        rintro ⟨h8, hl8⟩
        exact hne ⟨fun hp => hl0 ((Acb.looksLikeNextRecord_iff rd 0).mpr hp),
          (Acb.looksLikeNextRecord_iff rd 8).mp hl8⟩

/-- Witness for C5: a concrete reader whose direct peek is implausible
(`0xFF000000 > 32768`) while the peek at `+8` reads a plausible length 1,
so the 8-byte trailer is consumed. -/
theorem C5_witness :
    Acb.consumeOptionalSpotIdentifier
        ⟨[255, 0, 0, 0, 9, 9, 9, 9, 0, 0, 0, 1, 0, 65], 0⟩ 1 =
      { Acb.Reader.mk [255, 0, 0, 0, 9, 9, 9, 9, 0, 0, 0, 1, 0, 65] 0 with
        pos := (0 : ℕ) + 8 } := by
  have h := ((C5_trailer_consumption
    ⟨[255, 0, 0, 0, 9, 9, 9, 9, 0, 0, 0, 1, 0, 65], 0⟩ 1).2 (by decide)).1
  refine h.mpr ⟨?_, ?_⟩
  · rintro ⟨v, hv, hle, -⟩
    have hp : Acb.peekU32
        ⟨[255, 0, 0, 0, 9, 9, 9, 9, 0, 0, 0, 1, 0, 65], 0⟩ 0 =
        some 4278190080 := by decide
    rw [hp] at hv
    injection hv with hv
    omega
  · exact ⟨1, by decide, by norm_num, by decide⟩

/-! ## Claim C1 -/

namespace Repo

theorem mem_insertAscBy (f : Row → ℝ) (x : Row) : ∀ (l : List Row) (y : Row),
    y ∈ insertAscBy f x l → y = x ∨ y ∈ l := by
  intro l
  induction l with
  | nil =>
    intro y hy
    unfold insertAscBy at hy
    simp at hy
    exact Or.inl hy
  | cons a as ih =>
    intro y hy
    unfold insertAscBy at hy
    split at hy
    · rcases List.mem_cons.mp hy with h | h
      · exact Or.inl h
      · exact Or.inr h
    · rcases List.mem_cons.mp hy with h | h
      · exact Or.inr (List.mem_cons.mpr (Or.inl h))
      · rcases ih y h with h1 | h1
        · exact Or.inl h1
        · exact Or.inr (List.mem_cons.mpr (Or.inr h1))

theorem mem_sortAscBy (f : Row → ℝ) : ∀ (l : List Row) (y : Row),
    y ∈ sortAscBy f l → y ∈ l := by
  intro l
  induction l with
  | nil => intro y hy; exact hy
  | cons a as ih =>
    intro y hy
    unfold sortAscBy at hy
    rcases mem_insertAscBy f a _ y hy with h | h
    · exact List.mem_cons.mpr (Or.inl h)
    · exact List.mem_cons.mpr (Or.inr (ih y h))

theorem insertAscBy_congr (f g : Row → ℝ) (x : Row) (hfx : f x = g x) :
    ∀ l : List Row, (∀ y ∈ l, f y = g y) →
    insertAscBy f x l = insertAscBy g x l := by
  intro l
  induction l with
  | nil => intro _; rfl
  | cons a as ih =>
    intro h
    unfold insertAscBy
    rw [hfx, h a (List.mem_cons.mpr (Or.inl rfl))]
    split
    · rfl
    · rw [ih (fun y hy => h y (List.mem_cons.mpr (Or.inr hy)))]

theorem sortAscBy_congr (f g : Row → ℝ) : ∀ l : List Row,
    (∀ y ∈ l, f y = g y) → sortAscBy f l = sortAscBy g l := by
  intro l
  induction l with
  | nil => intro _; rfl
  | cons x xs ih =>
    intro h
    unfold sortAscBy
    rw [ih (fun y hy => h y (List.mem_cons.mpr (Or.inr hy)))]
    exact insertAscBy_congr f g x (h x (List.mem_cons.mpr (Or.inl rfl))) _
      (fun y hy => h y (List.mem_cons.mpr (Or.inr (mem_sortAscBy g xs y hy))))

theorem row_score_spec (usage : Usage) (targetRgb : ℕ × ℕ × ℕ)
    (targetLab : ℝ × ℝ × ℝ) (e : Entry) (c : Cand) :
    (rowOf usage targetRgb targetLab e c).score =
      spec_row_score usage (rowOf usage targetRgb targetLab e c) := by
  rcases hc : c.code with _ | cl
  · simp [rowOf, spec_row_score, orNone, strOfOpt, usage_key, hc]
    ring_nf
  · cases cl with
    | nil =>
      simp [rowOf, spec_row_score, orNone, strOfOpt, usage_key, hc]
      ring_nf
    | cons ch cs =>
      simp [rowOf, spec_row_score, orNone, strOfOpt, usage_key, hc]
      ring_nf

theorem allRows_score_spec (scopedBooks : List Entry) (mode : Mode)
    (usage : Usage) (targetRgb : ℕ × ℕ × ℕ) (targetLab : ℝ × ℝ × ℝ) :
    ∀ row ∈ allRows scopedBooks mode usage targetRgb targetLab,
      row.score = spec_row_score usage row := by
  intro row hrow
  unfold allRows at hrow
  simp only [List.mem_flatMap, List.mem_map] at hrow
  obtain ⟨e, -, c, -, rfl⟩ := hrow
  exact row_score_spec usage targetRgb targetLab e c

end Repo

/-- C1 (amended): whenever `search_by_hex` reaches the scan stage (the
query parses, the normalized hex is not a fixed achromatic and the
expert-mode probable-achromatic short-circuit does not fire), the
returned `nearest` list consists, in order, of the top `limit` scanned
items ranked ascending (stably) by
`score = delta_e + rarity_penalty − usage_bonus` — in BOTH modes, not
only in expert mode (`rarity_penalty = 0.2` iff the swatch has no code,
`usage_bonus = min(2.0, 0.05·usage_count)`). -/
theorem C1_sort_key_is_score_in_both_modes
    (catalog : List Repo.Entry) (usage : Repo.Usage) (query : List Char)
    (bookScope : Option (List Char)) (limit : ℕ) (mode : Repo.Mode)
    (tw tb : ℝ) (aEn : Bool) (rgb : ℕ × ℕ × ℕ)
    (scopedBooks : List Repo.Entry)
    (hparse : ColorConvert.parse_color_input query = .ok rgb)
    (hscope : Repo.resolveScope catalog bookScope = .ok scopedBooks)
    (hfix : Repo.fixedAchromaticName
      (pyUpper (ColorConvert.rgb_to_hex rgb)) = none)
    (hprob : mode = .expert →
      (if aEn then Repo.detectProbableAchromatic rgb tw tb
        (Repo.scopeIdOf scopedBooks) (Repo.scopeTitleOf scopedBooks)
        (Repo.scopeFilenameOf scopedBooks) else none) = none) :
    (Repo.search_by_hex catalog usage query bookScope limit mode tw tb
        aEn).toOption.map (fun r => r.1.nearest.map (fun rk => rk.base)) =
      some (((Repo.sortAscBy (Repo.spec_row_score usage)
          (Repo.allRows scopedBooks mode usage rgb
            (ColorConvert.rgb_to_lab_d50 rgb))).take limit).map
        (fun row => row.item)) := by
  have hsearch : Repo.search_by_hex catalog usage query bookScope limit mode
      tw tb aEn = .ok (Repo.scanPayload scopedBooks mode usage rgb
        (ColorConvert.rgb_to_lab_d50 rgb) (ColorConvert.rgb_to_hex rgb)
        limit) := by
    unfold Repo.search_by_hex
    simp only [hparse, hscope]
    unfold Repo.forcedAchromaticItemFromHex
    simp only [hfix]
    cases mode with
    | normal => rw [if_neg (by simp)]
    | expert =>
      rw [if_pos rfl, hprob rfl]
  rw [hsearch]
  simp only [Except.toOption, Option.map]
  unfold Repo.scanPayload
  have hsort : Repo.sortRows (Repo.allRows scopedBooks mode usage rgb
      (ColorConvert.rgb_to_lab_d50 rgb)) =
      Repo.sortAscBy (Repo.spec_row_score usage)
        (Repo.allRows scopedBooks mode usage rgb
          (ColorConvert.rgb_to_lab_d50 rgb)) := by
    unfold Repo.sortRows
    exact Repo.sortAscBy_congr _ _ _
      (Repo.allRows_score_spec scopedBooks mode usage rgb _)
  simp only []
  rw [hsort]
  cases mode with
  | normal =>
    have hn : (Repo.Mode.normal = Repo.Mode.expert) = False := by simp
    simp only [hn, if_false, List.map_map]
    rfl
  | expert =>
    have he : (Repo.Mode.expert = Repo.Mode.expert) = True := by simp
    simp only [he, if_true]
    rw [List.map_append, List.map_map]
    have h1 : ((fun rk : Repo.Ranked => rk.base) ∘ Repo.addReason) =
        (fun rk : Repo.Ranked => rk.base) := rfl
    rw [h1, ← List.map_append, List.take_append_drop]
    simp only [List.map_map]
    rfl

/-- Witness for C1 at a concrete query and catalog (expert mode, probable
detection disabled). -/
theorem C1_witness :
    (Repo.search_by_hex [] (fun _ => 0) "#102030".data none 200 .expert 2 2
        false).toOption.map (fun r => r.1.nearest.map (fun rk => rk.base)) =
      some (((Repo.sortAscBy (Repo.spec_row_score (fun _ => 0))
          (Repo.allRows [] .expert (fun _ => 0) (16, 32, 48)
            (ColorConvert.rgb_to_lab_d50 (16, 32, 48)))).take 200).map
        (fun row => row.item)) :=
  C1_sort_key_is_score_in_both_modes [] (fun _ => 0) "#102030".data none 200
    .expert 2 2 false (16, 32, 48) [] (by decide) rfl (by decide)
    (fun _ => rfl)

/-- Counterexample for C1's normal-mode half: two swatches with the same
hex (hence exactly equal `delta_e`), the first without a code.  The claim
says normal mode ranks by `delta_e` alone, which by stability of the sort
would keep book order `[A, B]`; the code ranks by the full score, so the
rarity penalty 0.2 demotes `A` and `search_by_hex` returns `[B, A]`. -/
theorem C1_counterexample :
    ((Repo.search_by_hex
        [⟨"b".data, "T".data, "t.acb".data, none,
          some [⟨"A".data, [], "#336699".data⟩,
                ⟨"B".data, "X".data, "#336699".data⟩], none⟩]
        (fun _ => 0) "#102030".data none 200 .normal 2 2 false).toOption.map
      (fun r => r.1.nearest.map (fun rk => rk.base.name)))
      = some ["B".data, "A".data] ∧
    ((Repo.claimNormalRanking
        (Repo.allRows
          [⟨"b".data, "T".data, "t.acb".data, none,
            some [⟨"A".data, [], "#336699".data⟩,
                  ⟨"B".data, "X".data, "#336699".data⟩], none⟩]
          .normal (fun _ => 0) (16, 32, 48)
          (ColorConvert.rgb_to_lab_d50 (16, 32, 48))) 200).map
      (fun row => row.item.name))
      = ["A".data, "B".data] ∧
    (["B".data, "A".data] : List (List Char)) ≠ ["A".data, "B".data] := by
  refine ⟨?_, ?_, by decide⟩
  · unfold Repo.search_by_hex
    simp only [show ColorConvert.parse_color_input "#102030".data =
      Except.ok (16, 32, 48) from by decide]
    simp only [Repo.resolveScope]
    unfold Repo.forcedAchromaticItemFromHex
    simp only [show Repo.fixedAchromaticName
      (pyUpper (ColorConvert.rgb_to_hex (16, 32, 48))) = none from by decide]
    rw [if_neg (by simp)]
    simp only [Except.toOption, Option.map]
    unfold Repo.scanPayload Repo.allRows Repo.liveEntries Repo.candsOfEntry
      Repo.rowOf Repo.sortRows
    simp [Repo.sortAscBy, Repo.insertAscBy, Repo.toRanked]
    split
    · rename_i h
      norm_num at h
    · simp [Repo.toRanked, Repo.orNone]
  · unfold Repo.claimNormalRanking Repo.allRows Repo.liveEntries
      Repo.candsOfEntry Repo.rowOf
    simp [Repo.sortAscBy, Repo.insertAscBy]

/-! ## Claim C10 -/

namespace Repo

/-- The increment loop adds, for each key, one per top-5 item carrying
that key. -/
theorem foldIncr_count : ∀ (items : List Ranked) (usage : Usage) (k : List Char),
    foldIncr usage items k =
      usage k + (items.map
        (fun r => usage_key (strOfOpt r.base.bookId) r.base.name)).count k := by
  intro items
  induction items with
  | nil => intro u k; simp [foldIncr]
  | cons r rs ih =>
    intro u k
    unfold foldIncr at ih ⊢
    simp only [List.foldl_cons, List.map_cons]
    rw [ih]
    unfold bumpUsage
    by_cases hk : k = usage_key (strOfOpt r.base.bookId) r.base.name
    · rw [if_pos hk]
      simp [List.count_cons, hk]
      omega
    · rw [if_neg hk]
      simp [List.count_cons, Ne.symm hk]

end Repo

/-- C10 (amended): a normal-mode `search_by_hex` call never modifies the
usage-score map (every path, including parse errors and the achromatic
short-circuits).  In expert mode, when neither achromatic short-circuit
fires, each returned top-5 item increments its `(book_id, name)` key by
one — so a key shared by several top-5 items is incremented once per
item, and every other key is unchanged; the expert-mode short-circuit
paths also leave the map unchanged. -/
theorem C10_usage_updates
    (catalog : List Repo.Entry) (usage : Repo.Usage) (query : List Char)
    (bookScope : Option (List Char)) (limit : ℕ) (mode : Repo.Mode)
    (tw tb : ℝ) (aEn : Bool) :
    (mode = .normal →
      Repo.searchUsageAfter catalog usage query bookScope limit mode tw tb aEn
        = usage)
    ∧ (∀ (rgb : ℕ × ℕ × ℕ) (scopedBooks : List Repo.Entry),
        ColorConvert.parse_color_input query = .ok rgb →
        Repo.resolveScope catalog bookScope = .ok scopedBooks →
        mode = .expert →
        Repo.fixedAchromaticName (pyUpper (ColorConvert.rgb_to_hex rgb)) =
          none →
        (if aEn then Repo.detectProbableAchromatic rgb tw tb
          (Repo.scopeIdOf scopedBooks) (Repo.scopeTitleOf scopedBooks)
          (Repo.scopeFilenameOf scopedBooks) else none) = none →
        ∀ k, Repo.searchUsageAfter catalog usage query bookScope limit mode
            tw tb aEn k =
          usage k + ((Repo.searchTop5 catalog usage query bookScope limit mode
            tw tb aEn).map
            (fun r => Repo.usage_key (Repo.strOfOpt r.base.bookId)
              r.base.name)).count k)
    ∧ (∀ (rgb : ℕ × ℕ × ℕ) (scopedBooks : List Repo.Entry),
        ColorConvert.parse_color_input query = .ok rgb →
        Repo.resolveScope catalog bookScope = .ok scopedBooks →
        (Repo.fixedAchromaticName (pyUpper (ColorConvert.rgb_to_hex rgb)) ≠
            none ∨
          (mode = .expert ∧ (if aEn then Repo.detectProbableAchromatic rgb tw
            tb (Repo.scopeIdOf scopedBooks) (Repo.scopeTitleOf scopedBooks)
            (Repo.scopeFilenameOf scopedBooks) else none) ≠ none)) →
        Repo.searchUsageAfter catalog usage query bookScope limit mode tw tb
          aEn = usage) := by
  refine ⟨?_, ?_, ?_⟩
  · intro hmode
    subst hmode
    unfold Repo.searchUsageAfter Repo.search_by_hex
    cases hp : ColorConvert.parse_color_input query with
    | error e => simp
    | ok rgb =>
      simp only []
      cases hs : Repo.resolveScope catalog bookScope with
      | error e => simp
      | ok scopedBooks =>
        simp only []
        cases hf : Repo.forcedAchromaticItemFromHex
            (ColorConvert.rgb_to_hex rgb) (Repo.scopeIdOf scopedBooks)
            (Repo.scopeTitleOf scopedBooks)
            (Repo.scopeFilenameOf scopedBooks) with
        | some forced => simp [hf]
        | none =>
          simp only [hf]
          rw [if_neg (by simp)]
          unfold Repo.scanPayload
          simp
  · intro rgb scopedBooks hp hs hmode hfix hprob k
    subst hmode
    have hsearch : Repo.search_by_hex catalog usage query bookScope limit
        .expert tw tb aEn = .ok (Repo.scanPayload scopedBooks .expert usage
          rgb (ColorConvert.rgb_to_lab_d50 rgb)
          (ColorConvert.rgb_to_hex rgb) limit) := by
      unfold Repo.search_by_hex
      simp only [hp, hs]
      unfold Repo.forcedAchromaticItemFromHex
      simp only [hfix, if_true]
      rw [hprob]
    unfold Repo.searchUsageAfter Repo.searchTop5
    rw [hsearch]
    unfold Repo.scanPayload
    have he : (Repo.Mode.expert = Repo.Mode.expert) = True := by simp
    simp only [he, if_true, Option.getD_some]
    exact Repo.foldIncr_count _ usage k
  · intro rgb scopedBooks hp hs hor
    unfold Repo.searchUsageAfter Repo.search_by_hex
    simp only [hp, hs]
    rcases hor with hfix | ⟨hmode, hprob⟩
    · cases hf : Repo.forcedAchromaticItemFromHex
          (ColorConvert.rgb_to_hex rgb) (Repo.scopeIdOf scopedBooks)
          (Repo.scopeTitleOf scopedBooks)
          (Repo.scopeFilenameOf scopedBooks) with
      | some forced => simp [hf]
      | none =>
        exfalso
        apply hfix
        unfold Repo.forcedAchromaticItemFromHex at hf
        cases hx : Repo.fixedAchromaticName
            (pyUpper (ColorConvert.rgb_to_hex rgb)) with
        | none => rfl
        | some nm => rw [hx] at hf; cases hf
    · subst hmode
      cases hf : Repo.forcedAchromaticItemFromHex
          (ColorConvert.rgb_to_hex rgb) (Repo.scopeIdOf scopedBooks)
          (Repo.scopeTitleOf scopedBooks)
          (Repo.scopeFilenameOf scopedBooks) with
      | some forced => simp [hf]
      | none =>
        simp only [hf, if_true]
        cases hd : (if aEn then Repo.detectProbableAchromatic rgb tw tb
            (Repo.scopeIdOf scopedBooks) (Repo.scopeTitleOf scopedBooks)
            (Repo.scopeFilenameOf scopedBooks) else none) with
        | none => exact absurd hd hprob
        | some prob => simp [hd]

/-- Witness for C10's normal-mode half at a concrete call. -/
theorem C10_witness :
    Repo.searchUsageAfter [] (fun _ => 0) "#102030".data none 200 .normal
      2 2 true = (fun _ => 0) :=
  (C10_usage_updates [] (fun _ => 0) "#102030".data none 200 .normal 2 2
    true).1 rfl

/-- Counterexample for C10 as stated: a book with two same-named swatches
whose rows both land in the top 5.  Their shared key `b::N` is
incremented by two, not one. -/
theorem C10_counterexample :
    Repo.searchUsageAfter
        [⟨"b".data, "T".data, "t.acb".data, none,
          some [⟨"N".data, "X".data, "#336699".data⟩,
                ⟨"N".data, "Y".data, "#336699".data⟩], none⟩]
        (fun _ => 0) "#102030".data none 200 .expert 2 2 false "b::N".data = 2
      ∧ (2 : ℕ) ≠ 1 := by
  refine ⟨?_, by decide⟩
  unfold Repo.searchUsageAfter Repo.search_by_hex
  simp only [show ColorConvert.parse_color_input "#102030".data =
    Except.ok (16, 32, 48) from by decide]
  simp only [Repo.resolveScope]
  unfold Repo.forcedAchromaticItemFromHex
  simp only [show Repo.fixedAchromaticName
    (pyUpper (ColorConvert.rgb_to_hex (16, 32, 48))) = none from by decide]
  simp only [if_true]
  unfold Repo.scanPayload Repo.allRows Repo.liveEntries Repo.candsOfEntry
    Repo.rowOf Repo.sortRows
  simp [Repo.sortAscBy, Repo.insertAscBy, Repo.toRanked, Repo.addReason,
    Repo.foldIncr, Repo.bumpUsage, Repo.usage_key, Repo.strOfOpt]

/-! ## Claim C3 -/

namespace Suggester

theorem findItem_update (acc : List (List Char × SummaryItem))
    (ln key : List Char) (p : Pantone) :
    findItem (summaryUpdate acc ln p) key =
      if pantoneKey p = key then
        match findItem acc key with
        | none => some ⟨p, 1, [ln]⟩
        | some item => some ⟨item.pantone, item.occurrences + 1,
            if ln ∈ item.layers then item.layers else item.layers ++ [ln]⟩
      else findItem acc key := by
  induction acc with
  | nil =>
    by_cases h : pantoneKey p = key <;>
      simp [summaryUpdate, findItem, h]
  | cons hd tl ih =>
    obtain ⟨k0, item0⟩ := hd
    by_cases hk : k0 = pantoneKey p
    · by_cases hkey : k0 = key
      · have hpk : pantoneKey p = key := by rw [← hk, hkey]
        simp [summaryUpdate, findItem, hk, hkey, hpk]
      · have hpk : ¬ pantoneKey p = key := by rw [← hk]; exact hkey
        simp [summaryUpdate, findItem, hk, hkey, hpk]
    · by_cases hkey : k0 = key
      · have hpk : ¬ pantoneKey p = key := fun hh => hk (by rw [hkey, ← hh])
        have hk2 : ¬ key = pantoneKey p := by rw [← hkey]; exact hk
        simp [summaryUpdate, findItem, hkey, hk2, hpk]
      · simp [summaryUpdate, findItem, hk, hkey, ih]

theorem occOf_update (acc : List (List Char × SummaryItem))
    (ln key : List Char) (p : Pantone) :
    occOf (summaryUpdate acc ln p) key =
      occOf acc key + (if pantoneKey p = key then 1 else 0) := by
  unfold occOf
  rw [findItem_update]
  by_cases h : pantoneKey p = key
  · rw [if_pos h, if_pos h]
    cases findItem acc key <;> simp
  · rw [if_neg h, if_neg h]
    cases findItem acc key <;> simp

theorem goodLen_update (acc : List (List Char × SummaryItem))
    (ln : List Char) (p : Pantone) (h : GoodLen acc) :
    GoodLen (summaryUpdate acc ln p) := by
  intro key it hit
  rw [findItem_update] at hit
  by_cases hpk : pantoneKey p = key
  · rw [if_pos hpk] at hit
    cases hfind : findItem acc key with
    | none =>
      rw [hfind] at hit
      cases hit
      simp
    | some old =>
      rw [hfind] at hit
      cases hit
      have := h key old hfind
      simp only []
      split
      · omega
      · simp only [List.length_append, List.length_cons, List.length_nil]
        omega
  · rw [if_neg hpk] at hit
    exact h key it hit

theorem occOf_layer (ln key : List Char) : ∀ (ps : List Pantone)
    (acc : List (List Char × SummaryItem)),
    occOf (summarizeLayer acc ln ps) key =
      occOf acc key + (ps.filter (fun q => pantoneKey q = key)).length := by
  intro ps
  induction ps with
  | nil => intro acc; simp [summarizeLayer]
  | cons q qs ih =>
    intro acc
    unfold summarizeLayer at ih ⊢
    simp only [List.foldl_cons]
    rw [ih, occOf_update]
    by_cases h : pantoneKey q = key
    · rw [if_pos h]
      simp only [List.filter_cons, decide_eq_true_eq, if_pos h, List.length_cons]
      omega
    · rw [if_neg h]
      simp only [List.filter_cons, decide_eq_true_eq, if_neg h]
      omega

theorem goodLen_layer (ln : List Char) : ∀ (ps : List Pantone)
    (acc : List (List Char × SummaryItem)), GoodLen acc →
    GoodLen (summarizeLayer acc ln ps) := by
  intro ps
  induction ps with
  | nil => intro acc h; exact h
  | cons q qs ih =>
    intro acc h
    unfold summarizeLayer at ih ⊢
    simp only [List.foldl_cons]
    exact ih _ (goodLen_update _ _ _ h)

theorem occOf_build (key : List Char) : ∀ (ls : List (List Char × List Pantone))
    (acc : List (List Char × SummaryItem)),
    occOf (ls.foldl
        (fun a l => if l.2 = [] then a else summarizeLayer a l.1 l.2) acc) key =
      occOf acc key +
        (ls.map (fun l => (l.2.filter (fun q => pantoneKey q = key)).length)).sum := by
  intro ls
  induction ls with
  | nil => intro acc; simp
  | cons l ls ih =>
    intro acc
    simp only [List.foldl_cons, List.map_cons, List.sum_cons]
    rw [ih]
    by_cases h : l.2 = []
    · rw [if_pos h, h]
      simp
    · rw [if_neg h, occOf_layer]
      omega

theorem goodLen_build : ∀ (ls : List (List Char × List Pantone))
    (acc : List (List Char × SummaryItem)), GoodLen acc →
    GoodLen (ls.foldl
      (fun a l => if l.2 = [] then a else summarizeLayer a l.1 l.2) acc) := by
  intro ls
  induction ls with
  | nil => intro acc h; exact h
  | cons l ls ih =>
    intro acc h
    simp only [List.foldl_cons]
    by_cases hl : l.2 = []
    · rw [if_pos hl]
      exact ih _ h
    · rw [if_neg hl]
      exact ih _ (goodLen_layer _ _ _ h)

end Suggester

/-- Counterexample for C3: a single layer whose two cluster results map
to the same swatch yields `occurrences = 2` while the swatch appeared in
only one distinct layer (`layers` has length 1). -/
theorem C3_counterexample :
    (Suggester.buildSummary [("L1".data,
        [⟨"b".data, "N".data, "#FF0000".data⟩,
         ⟨"b".data, "N".data, "#FF0000".data⟩])]).map
        (fun kv => (kv.2.occurrences, kv.2.layers.length)) = [(2, 1)] ∧
    (2 : ℕ) ≠ 1 := by
  refine ⟨by decide, by decide⟩

/-- C3 (amended): for every sequence of input layers and cluster
results, a summary item's `occurrences` equals the total number of
cluster results that mapped to its swatch key (counting multiplicity
within a layer), and is at least the length of the deduplicated `layers`
list. -/
theorem C3_occurrences_count_cluster_hits
    (ls : List (List Char × List Suggester.Pantone))
    (key : List Char) (item : Suggester.SummaryItem)
    (h : Suggester.findItem (Suggester.buildSummary ls) key = some item) :
    item.occurrences =
      (ls.map (fun l =>
        (l.2.filter (fun q => Suggester.pantoneKey q = key)).length)).sum ∧
    item.layers.length ≤ item.occurrences := by
  constructor
  · have hocc := Suggester.occOf_build key ls []
    have h2 : Suggester.occOf (Suggester.buildSummary ls) key =
        item.occurrences := by
      unfold Suggester.occOf
      rw [h]
    unfold Suggester.buildSummary at h2
    rw [h2] at hocc
    simpa [Suggester.occOf, Suggester.findItem] using hocc
  · exact Suggester.goodLen_build ls []
      (fun k it hit => by cases hit) key item h

/-- Witness for C3: two layers, each with one hit on the same swatch. -/
theorem C3_witness :
    (Suggester.SummaryItem.mk ⟨"b".data, "N".data, "#FF0000".data⟩ 2
        ["A".data, "B".data]).occurrences =
      (([("A".data, [Suggester.Pantone.mk "b".data "N".data "#FF0000".data]),
         ("B".data, [Suggester.Pantone.mk "b".data "N".data "#FF0000".data])]).map
        (fun l => (l.2.filter (fun q => Suggester.pantoneKey q =
          Suggester.pantoneKey
            (Suggester.Pantone.mk "b".data "N".data "#FF0000".data))).length)).sum ∧
    (Suggester.SummaryItem.mk ⟨"b".data, "N".data, "#FF0000".data⟩ 2
        ["A".data, "B".data]).layers.length ≤
      (Suggester.SummaryItem.mk ⟨"b".data, "N".data, "#FF0000".data⟩ 2
        ["A".data, "B".data]).occurrences :=
  C3_occurrences_count_cluster_hits
    [("A".data, [Suggester.Pantone.mk "b".data "N".data "#FF0000".data]),
     ("B".data, [Suggester.Pantone.mk "b".data "N".data "#FF0000".data])]
    (Suggester.pantoneKey (Suggester.Pantone.mk "b".data "N".data "#FF0000".data))
    (Suggester.SummaryItem.mk ⟨"b".data, "N".data, "#FF0000".data⟩ 2
      ["A".data, "B".data])
    (by decide)

/-! ## Claim C4 -/

/-- Counterexample for C4: an ACB record whose *decoded* name is empty
because its single declared character is a NUL.  The parser skips it as a
placeholder without reading a code or components, but the next read
starts 6 bytes after the start of the length field (4 length bytes plus 2
name bytes), not 4 as the claim's parenthetical states.  The full parse
of a book containing such a record (followed by one real RGB record)
still succeeds with the skip. -/
theorem C4_counterexample :
    Acb.read_pascal_utf16be_string ⟨[0, 0, 0, 1, 0, 0], 0⟩ "record name".data =
      .ok ([], ⟨[0, 0, 0, 1, 0, 0], 6⟩) ∧
    (6 : ℕ) ≠ 4 ∧
    Acb.parse_acb_bytes
        [0x38, 0x42, 0x43, 0x42, 0, 1, 0, 0, 0, 0, 0, 0, 0, 0, 0, 0,
         0, 0, 0, 0, 0, 0, 0, 0, 0, 2, 0, 0, 0, 0, 0, 0,
         0, 0, 0, 1, 0, 0,
         0, 0, 0, 2, 0, 65, 0, 66, 67, 48, 49, 56, 54, 32, 228, 0, 43] =
      .ok (⟨1, 0, [], [], [], [], 2, 0, 0, 0, "RGB".data,
        [⟨[65, 66], "C0186".data, "#E4002B".data⟩], []⟩, 1) := by
  refine ⟨by decide, by decide, by decide⟩

/-- C4 (amended): on every successful ACB parse, the number of stored
colors plus the number of skipped placeholder records equals the declared
`color_count`; hence `len(colors) ≤ color_count`, with strict inequality
exactly when at least one placeholder was skipped.  (A placeholder whose
name length field is 0 consumes nothing beyond the length field itself;
a placeholder whose declared characters decode to an empty string also
consumes its name bytes — see the counterexample.) -/
theorem C4_placeholder_count (data : List ℕ) (book : Acb.Book)
    (skipped : ℕ) (h : Acb.parse_acb_bytes data = .ok (book, skipped)) :
    book.colors.length + skipped = book.colorCount ∧
    book.colors.length ≤ book.colorCount ∧
    (book.colors.length < book.colorCount ↔ 1 ≤ skipped) := by
  unfold Acb.parse_acb_bytes at h
  repeat' split at h
  all_goals cases h
  rename_i heq
  have hlen := Acb.parseRecords_length _ _ _ _ _ _ heq
  refine ⟨?_, ?_, ?_⟩ <;> simp only [] <;> omega

/-- Witness for C4 at the spec's minimal-ACB shape: two declared records,
the first a placeholder with name length 0. -/
theorem C4_witness :
    (Acb.Book.mk 1 0 [] [] [] [] 2 0 0 0 "RGB".data
        [⟨[65, 66], "C0186".data, "#E4002B".data⟩] []).colors.length + 1 =
      (Acb.Book.mk 1 0 [] [] [] [] 2 0 0 0 "RGB".data
        [⟨[65, 66], "C0186".data, "#E4002B".data⟩] []).colorCount ∧
    (Acb.Book.mk 1 0 [] [] [] [] 2 0 0 0 "RGB".data
        [⟨[65, 66], "C0186".data, "#E4002B".data⟩] []).colors.length ≤
      (Acb.Book.mk 1 0 [] [] [] [] 2 0 0 0 "RGB".data
        [⟨[65, 66], "C0186".data, "#E4002B".data⟩] []).colorCount ∧
    ((Acb.Book.mk 1 0 [] [] [] [] 2 0 0 0 "RGB".data
        [⟨[65, 66], "C0186".data, "#E4002B".data⟩] []).colors.length <
      (Acb.Book.mk 1 0 [] [] [] [] 2 0 0 0 "RGB".data
        [⟨[65, 66], "C0186".data, "#E4002B".data⟩] []).colorCount ↔
      1 ≤ 1) :=
  C4_placeholder_count
    [0x38, 0x42, 0x43, 0x42, 0, 1, 0, 0, 0, 0, 0, 0, 0, 0, 0, 0,
     0, 0, 0, 0, 0, 0, 0, 0, 0, 2, 0, 0, 0, 0, 0, 0,
     0, 0, 0, 0,
     0, 0, 0, 2, 0, 65, 0, 66, 67, 48, 49, 56, 54, 32, 228, 0, 43]
    (Acb.Book.mk 1 0 [] [] [] [] 2 0 0 0 "RGB".data
      [⟨[65, 66], "C0186".data, "#E4002B".data⟩] []) 1 (by decide)

/-! ## Claim C2 -/

/-- C2: parsing the minimal ASE file (one color block, model `"RGB "`,
floats `(1.0, 0.0, 0.0)`, color-type 2, as built by the repository's own
`test_parse_minimal_ase_rgb`) does not succeed: `_read_ase_rgb` calls
`block_reader.read_f32`, a method `ByteReader` does not define, so the
parse dies with `AttributeError` instead of returning the expected Book.
(The float payload `3F 80 00 00 / 0 / 0` below is IEEE-754 big-endian
`(1.0, 0.0, 0.0)`.) -/
theorem C2_minimal_ase_crashes_on_read_f32 :
    Ase.parse_ase_bytes
        [0x41, 0x53, 0x45, 0x46, 0, 1, 0, 0, 0, 0, 0, 1,
         0, 1, 0, 0, 0, 24,
         0, 2, 0, 88, 0, 0,
         0x52, 0x47, 0x42, 0x20,
         0x3F, 0x80, 0, 0, 0, 0, 0, 0, 0, 0, 0, 0,
         0, 2] =
      .error .attributeErrorReadF32 := by
  decide

/-! ## Claim C6 -/

/-- C6: for every Lab triple `x`, `delta_e_ciede2000 x x` is exactly `0`
(not merely approximately): every difference term vanishes identically, so
the final square root is of `0`. -/
theorem C6_delta_e_self_eq_zero (lab : ℝ × ℝ × ℝ) :
    ColorConvert.delta_e_ciede2000 lab lab = 0 := by
  unfold ColorConvert.delta_e_ciede2000
  simp only [sub_self, abs_zero]
  norm_num [ColorConvert.radians]

/-! ## Claim C7 -/

/-- C7: for every RGB triple with components in `0..255`,
`parse_color_input` applied to `rgb_to_hex` of the triple succeeds and
returns exactly the same triple. -/
theorem C7_parse_left_inverse_of_rgb_to_hex (r g b : ℕ)
    (hr : r ≤ 255) (hg : g ≤ 255) (hb : b ≤ 255) :
    ColorConvert.parse_color_input (ColorConvert.rgb_to_hex (r, g, b)) =
      .ok (r, g, b) := by
  obtain ⟨ha1, hv1, hs1, hu1⟩ := hexDigitU_spec (r / 16) (by omega)
  obtain ⟨ha2, hv2, hs2, hu2⟩ := hexDigitU_spec (r % 16) (by omega)
  obtain ⟨ha3, hv3, hs3, hu3⟩ := hexDigitU_spec (g / 16) (by omega)
  obtain ⟨ha4, hv4, hs4, hu4⟩ := hexDigitU_spec (g % 16) (by omega)
  obtain ⟨ha5, hv5, hs5, hu5⟩ := hexDigitU_spec (b / 16) (by omega)
  obtain ⟨ha6, hv6, hs6, hu6⟩ := hexDigitU_spec (b % 16) (by omega)
  have hs : ColorConvert.rgb_to_hex (r, g, b) = '#' ::
      [ColorConvert.hexDigitU (r / 16), ColorConvert.hexDigitU (r % 16),
       ColorConvert.hexDigitU (g / 16), ColorConvert.hexDigitU (g % 16),
       ColorConvert.hexDigitU (b / 16), ColorConvert.hexDigitU (b % 16)] := by
    simp [ColorConvert.rgb_to_hex, ColorConvert.byteHexU, ColorConvert.clamp8N,
      Nat.min_eq_right hr, Nat.min_eq_right hg, Nat.min_eq_right hb]
  have hmem : ∀ c ∈ '#' ::
      [ColorConvert.hexDigitU (r / 16), ColorConvert.hexDigitU (r % 16),
       ColorConvert.hexDigitU (g / 16), ColorConvert.hexDigitU (g % 16),
       ColorConvert.hexDigitU (b / 16), ColorConvert.hexDigitU (b % 16)],
      isPySpace c = false := by
    intro c hc
    simp only [List.mem_cons, List.mem_singleton, List.not_mem_nil, or_false] at hc
    rcases hc with rfl | rfl | rfl | rfl | rfl | rfl | rfl
    · decide
    · exact hs1
    · exact hs2
    · exact hs3
    · exact hs4
    · exact hs5
    · exact hs6
  rw [hs]
  unfold ColorConvert.parse_color_input ColorConvert.hex_to_rgb
  simp only [pyStrip_eq_self hmem]
  simp only [List.isEmpty_cons, List.head?_cons, Bool.false_eq_true, if_false,
    Option.some.injEq, pyUpper, List.map_cons, List.map_nil,
    show pyUpperChar '#' = '#' from by decide, hu1, hu2, hu3, hu4, hu5, hu6,
    List.length_cons, List.length_nil, List.all_cons, List.all_nil,
    ha1, ha2, ha3, ha4, ha5, ha6, Bool.and_self, Bool.and_true]
  norm_num
  rw [hv1, hv2, hv3, hv4, hv5, hv6]
  have e1 : r / 16 * 16 + r % 16 = r := by omega
  have e2 : g / 16 * 16 + g % 16 = g := by omega
  have e3 : b / 16 * 16 + b % 16 = b := by omega
  rw [e1, e2, e3]
  rw [if_neg (by simp [ha1, ha2, ha3, ha4, ha5, ha6])]

/-- Witness for C7 at the concrete triple `(170, 187, 204)`. -/
theorem C7_witness :
    (170 : ℕ) ≤ 255 ∧ (187 : ℕ) ≤ 255 ∧ (204 : ℕ) ≤ 255 ∧
    ColorConvert.parse_color_input (ColorConvert.rgb_to_hex (170, 187, 204)) =
      .ok (170, 187, 204) :=
  ⟨by decide, by decide, by decide,
    C7_parse_left_inverse_of_rgb_to_hex 170 187 204 (by decide) (by decide)
      (by decide)⟩


/-! ## Claim C8 -/

namespace Suggester

set_option maxHeartbeats 2000000 in
theorem histC8_1 : (histOfRaster 0 rasterC8).1 = binsC8 := by
  norm_num [histOfRaster, rasterC8, rasterStep, rowStep, pixelStep,
    binUpdate, binsC8, Prod.mk.injEq]
  decide

set_option maxHeartbeats 2000000 in
theorem histC8_2 : (histOfRaster 0 rasterC8).2 = borderC8 := by
  norm_num [histOfRaster, rasterC8, rasterStep, rowStep, pixelStep,
    binUpdate, borderC8, Prod.mk.injEq]
  decide

/-- Raw clusters of the sample raster: the bins in insertion order (the
weight-descending stable sort leaves them in place). -/
theorem rawC8 : sortDesc (rawClusters binsC8) =
    [⟨31, (0, 0, 0)⟩, ⟨1, (40, 0, 0)⟩, ⟨1, (51, 0, 0)⟩] := by
  norm_num [rawClusters, binsC8, pyRoundQ, sortDesc, insertDesc,
    List.filterMap]

theorem rpow_pow_twenty (x : ℝ) (hx : 0 ≤ x) :
    (x ^ ((1.15 : ℝ))) ^ (20 : ℕ) = x ^ (23 : ℕ) := by
  rw [← Real.rpow_natCast (x ^ ((1.15 : ℝ))) 20, ← Real.rpow_mul hx,
    ← Real.rpow_natCast x 23]
  norm_num

theorem lt_rpow_of_pow_lt {x b : ℝ} (hx : 0 ≤ x) (hb : 0 ≤ b)
    (h : b ^ (20 : ℕ) < x ^ (23 : ℕ)) : b < x ^ ((1.15 : ℝ)) := by
  by_contra hc
  push_neg at hc
  have h2 := pow_le_pow_left₀ (Real.rpow_nonneg hx _) hc 20
  rw [rpow_pow_twenty x hx] at h2
  linarith

theorem rpow_lt_of_pow_lt {x b : ℝ} (hx : 0 ≤ x) (hb : 0 ≤ b)
    (h : x ^ (23 : ℕ) < b ^ (20 : ℕ)) : x ^ ((1.15 : ℝ)) < b := by
  by_contra hc
  push_neg at hc
  have h2 := pow_le_pow_left₀ hb hc 20
  rw [rpow_pow_twenty x hx] at h2
  linarith

theorem d86_gt : (0.8406 : ℝ) < ((86 : ℝ) / 100) ^ ((1.15 : ℝ)) :=
  lt_rpow_of_pow_lt (by norm_num) (by norm_num) (by norm_num)

theorem d86_lt : ((86 : ℝ) / 100) ^ ((1.15 : ℝ)) < 0.8409 :=
  rpow_lt_of_pow_lt (by norm_num) (by norm_num) (by norm_num)

theorem d90_gt : (0.8857 : ℝ) < ((90 : ℝ) / 100) ^ ((1.15 : ℝ)) :=
  lt_rpow_of_pow_lt (by norm_num) (by norm_num) (by norm_num)

theorem d90_lt : ((90 : ℝ) / 100) ^ ((1.15 : ℝ)) < 0.8861 :=
  rpow_lt_of_pow_lt (by norm_num) (by norm_num) (by norm_num)

/-- Inside the normalization range the profile is a direct function of
`detail = (noise/100)^1.15`. -/
theorem noise_profile_eval (x : ℝ) (hx0 : (0 : ℝ) ≤ x) (hx100 : x ≤ 100) :
    _noise_profile x = (pyRound (2 + (x / 100) ^ ((1.15 : ℝ)) * 22),
      (22 - (x / 100) ^ ((1.15 : ℝ)) * 18) *
        (22 - (x / 100) ^ ((1.15 : ℝ)) * 18) * 3,
      max 0.003 (0.24 - (x / 100) ^ ((1.15 : ℝ)) * 0.232),
      max 0 (pyRound ((1 - (x / 100) ^ ((1.15 : ℝ))) * 3))) := by
  simp only [_noise_profile, _normalize_noise]
  rw [min_eq_right hx100, max_eq_right hx0]

/-- Closed form of the profile when the rounded cap is `n`, the min
ratio is above the 0.003 floor and the quant shift rounds to 0. -/
theorem profile_components (x : ℝ) (hx0 : (0 : ℝ) ≤ x) (hx100 : x ≤ 100)
    (d : ℝ) (hd : (x / 100) ^ ((1.15 : ℝ)) = d)
    (n : ℤ) (hn1 : (n : ℝ) ≤ 2 + d * 22) (hn2 : 2 + d * 22 < n + 1 / 2)
    (hr : (0.003 : ℝ) ≤ 0.24 - d * 0.232)
    (hs0 : (0 : ℝ) ≤ (1 - d) * 3) (hs : (1 - d) * 3 < 1 / 2) :
    _noise_profile x =
      (n, (22 - d * 18) * (22 - d * 18) * 3, 0.24 - d * 0.232, 0) := by
  rw [noise_profile_eval x hx0 hx100, hd]
  rw [pyRound_eq_of_lt_half _ n hn1 hn2]
  rw [pyRound_eq_of_lt_half ((1 - d) * 3) 0 (by exact_mod_cast hs0)
    (by push_cast; linarith)]
  rw [max_eq_right hr, max_self]

/-- With a merge threshold in `[121, 1600)` the two reddish bins (squared
distance 121) merge into the first of them; black (distances 1600 and
2601) stays separate. -/
theorem mergeC8_high (T : ℝ) (hT1 : (121 : ℝ) ≤ T) (hT2 : T < 1600) :
    mergeAll T [⟨31, (0, 0, 0)⟩, ⟨1, (40, 0, 0)⟩, ⟨1, (51, 0, 0)⟩] =
      [⟨31, (0, 0, 0)⟩, ⟨2, (40, 0, 0)⟩] := by
  have d1 : ¬ (((rgbDist2 (0, 0, 0) (40, 0, 0) : ℤ) : ℝ) ≤ T) := by
    have h : rgbDist2 (0, 0, 0) (40, 0, 0) = 1600 := by decide
    rw [h]; push_cast; linarith
  have d2 : ¬ (((rgbDist2 (0, 0, 0) (51, 0, 0) : ℤ) : ℝ) ≤ T) := by
    have h : rgbDist2 (0, 0, 0) (51, 0, 0) = 2601 := by decide
    rw [h]; push_cast; linarith
  have d3 : ((rgbDist2 (40, 0, 0) (51, 0, 0) : ℤ) : ℝ) ≤ T := by
    have h : rgbDist2 (40, 0, 0) (51, 0, 0) = 121 := by decide
    rw [h]; push_cast; linarith
  unfold mergeAll
  simp only [List.foldl_cons, List.foldl_nil]
  have e0 : foldMerge T [] ⟨31, (0, 0, 0)⟩ = [⟨31, (0, 0, 0)⟩] := by
    simp only [foldMerge]
  rw [e0]
  have e1 : foldMerge T [⟨31, (0, 0, 0)⟩] ⟨1, (40, 0, 0)⟩ =
      [⟨31, (0, 0, 0)⟩, ⟨1, (40, 0, 0)⟩] := by
    simp only [foldMerge, if_neg d1]
  rw [e1]
  have e2 : foldMerge T [⟨31, (0, 0, 0)⟩, ⟨1, (40, 0, 0)⟩] ⟨1, (51, 0, 0)⟩ =
      [⟨31, (0, 0, 0)⟩, ⟨2, (40, 0, 0)⟩] := by
    simp only [foldMerge, if_neg d2, if_pos d3]
    norm_num
  rw [e2]

/-- With a merge threshold below 121 nothing merges. -/
theorem mergeC8_low (T : ℝ) (hT : T < 121) (hT0 : 0 ≤ T) :
    mergeAll T [⟨31, (0, 0, 0)⟩, ⟨1, (40, 0, 0)⟩, ⟨1, (51, 0, 0)⟩] =
      [⟨31, (0, 0, 0)⟩, ⟨1, (40, 0, 0)⟩, ⟨1, (51, 0, 0)⟩] := by
  have d1 : ¬ (((rgbDist2 (0, 0, 0) (40, 0, 0) : ℤ) : ℝ) ≤ T) := by
    have h : rgbDist2 (0, 0, 0) (40, 0, 0) = 1600 := by decide
    rw [h]; push_cast; linarith
  have d2 : ¬ (((rgbDist2 (0, 0, 0) (51, 0, 0) : ℤ) : ℝ) ≤ T) := by
    have h : rgbDist2 (0, 0, 0) (51, 0, 0) = 2601 := by decide
    rw [h]; push_cast; linarith
  have d3 : ¬ (((rgbDist2 (40, 0, 0) (51, 0, 0) : ℤ) : ℝ) ≤ T) := by
    have h : rgbDist2 (40, 0, 0) (51, 0, 0) = 121 := by decide
    rw [h]; push_cast; linarith
  unfold mergeAll
  simp only [List.foldl_cons, List.foldl_nil]
  have e0 : foldMerge T [] ⟨31, (0, 0, 0)⟩ = [⟨31, (0, 0, 0)⟩] := by
    simp only [foldMerge]
  rw [e0]
  have e1 : foldMerge T [⟨31, (0, 0, 0)⟩] ⟨1, (40, 0, 0)⟩ =
      [⟨31, (0, 0, 0)⟩, ⟨1, (40, 0, 0)⟩] := by
    simp only [foldMerge, if_neg d1]
  rw [e1]
  have e2 : foldMerge T [⟨31, (0, 0, 0)⟩, ⟨1, (40, 0, 0)⟩] ⟨1, (51, 0, 0)⟩ =
      [⟨31, (0, 0, 0)⟩, ⟨1, (40, 0, 0)⟩, ⟨1, (51, 0, 0)⟩] := by
    simp only [foldMerge, if_neg d2, if_neg d3]
  rw [e2]

/-- Pipeline run on the sample raster when the threshold merges the two
reddish bins and the pooled ratio 2/33 passes the min-ratio filter. -/
theorem extractCore_high (T r : ℝ) (cap : ℤ) (hT1 : (121 : ℝ) ≤ T)
    (hT2 : T < 1600) (hr : r ≤ 2 / 33) (hcap : 2 ≤ cap) :
    extractCore T r 0 cap false rasterC8 =
      [⟨31, (0, 0, 0)⟩, ⟨2, (40, 0, 0)⟩] := by
  simp only [extractCore, histC8_1, histC8_2]
  rw [if_neg (by simp [binsC8] : ¬ (binsC8 = []))]
  rw [rawC8, mergeC8_high T hT1 hT2]
  have hs : sortDesc [(⟨31, (0, 0, 0)⟩ : QCluster), ⟨2, (40, 0, 0)⟩] =
      [⟨31, (0, 0, 0)⟩, ⟨2, (40, 0, 0)⟩] := by
    norm_num [sortDesc, insertDesc]
  rw [hs]
  simp only [Bool.false_eq_true, if_false, false_and]
  have htot : (List.map (fun c : QCluster => c.weight)
      [(⟨31, (0, 0, 0)⟩ : QCluster), ⟨2, (40, 0, 0)⟩]).sum = (33 : ℚ) := by
    norm_num [List.map]
  rw [htot]
  rw [if_neg (by norm_num : ¬ ((33 : ℚ) ≤ 0))]
  simp only [List.map_cons, List.map_nil]
  have hf1 : r ≤ (((31 : ℚ) / 33 : ℚ) : ℝ) := by push_cast; linarith
  have hf2 : r ≤ (((2 : ℚ) / 33 : ℚ) : ℝ) := by push_cast; linarith
  simp only [ratioFilter, if_pos hf1, if_pos hf2]
  rw [if_neg (by exact (List.cons_ne_nil _ _))]
  rw [List.take_of_length_le (by simp; omega)]
  simp only [List.map_cons, List.map_nil]

/-- Pipeline run on the sample raster when nothing merges and the
singleton ratios 1/33 fall below the min-ratio filter. -/
theorem extractCore_low (T r : ℝ) (cap : ℤ) (hT0 : (0 : ℝ) ≤ T)
    (hT : T < 121) (hr1 : r ≤ 31 / 33) (hr2 : 1 / 33 < r)
    (hcap : 1 ≤ cap) :
    extractCore T r 0 cap false rasterC8 = [⟨31, (0, 0, 0)⟩] := by
  simp only [extractCore, histC8_1, histC8_2]
  rw [if_neg (by simp [binsC8] : ¬ (binsC8 = []))]
  rw [rawC8, mergeC8_low T hT hT0]
  have hs : sortDesc [(⟨31, (0, 0, 0)⟩ : QCluster), ⟨1, (40, 0, 0)⟩,
      ⟨1, (51, 0, 0)⟩] =
      [⟨31, (0, 0, 0)⟩, ⟨1, (40, 0, 0)⟩, ⟨1, (51, 0, 0)⟩] := by
    norm_num [sortDesc, insertDesc]
  rw [hs]
  simp only [Bool.false_eq_true, if_false, false_and]
  have htot : (List.map (fun c : QCluster => c.weight)
      [(⟨31, (0, 0, 0)⟩ : QCluster), ⟨1, (40, 0, 0)⟩,
        ⟨1, (51, 0, 0)⟩]).sum = (33 : ℚ) := by
    norm_num [List.map]
  rw [htot]
  rw [if_neg (by norm_num : ¬ ((33 : ℚ) ≤ 0))]
  simp only [List.map_cons, List.map_nil]
  have hf1 : r ≤ (((31 : ℚ) / 33 : ℚ) : ℝ) := by push_cast; linarith
  have hfn : ¬ (r ≤ (((1 : ℚ) / 33 : ℚ) : ℝ)) := by push_cast; linarith
  simp only [ratioFilter, if_pos hf1, if_neg hfn]
  rw [if_neg (by exact (List.cons_ne_nil _ _))]
  rw [List.take_of_length_le (by simp; omega)]
  simp only [List.map_cons, List.map_nil]

/-- At noise 86 the extractor returns the black cluster and the merged
reddish cluster. -/
theorem extract86 : extractDominantClusters 86 false 0 rasterC8 =
    [⟨31, (0, 0, 0)⟩, ⟨2, (40, 0, 0)⟩] := by
  have hl := d86_gt
  have hu := d86_lt
  have hp : _noise_profile 86 =
      (20, (22 - ((86 : ℝ) / 100) ^ ((1.15 : ℝ)) * 18) *
        (22 - ((86 : ℝ) / 100) ^ ((1.15 : ℝ)) * 18) * 3,
        0.24 - ((86 : ℝ) / 100) ^ ((1.15 : ℝ)) * 0.232, 0) := by
    apply profile_components 86 (by norm_num) (by norm_num) _ rfl 20
    · push_cast; linarith
    · push_cast; linarith
    · linarith
    · linarith
    · linarith
  have hm : _normalize_max_colors 0 = 0 := by
    norm_num [_normalize_max_colors]
  simp only [extractDominantClusters, hp, hm, lt_self_iff_false, if_false,
    Int.toNat_zero]
  have hs1 : (6.8638 : ℝ) ≤ 22 - ((86 : ℝ) / 100) ^ ((1.15 : ℝ)) * 18 := by
    linarith
  have hs2 : 22 - ((86 : ℝ) / 100) ^ ((1.15 : ℝ)) * 18 ≤ 6.8692 := by
    linarith
  have hlo := mul_le_mul hs1 hs1 (by norm_num) (by linarith)
  have hhi := mul_le_mul hs2 hs2 (by linarith) (by norm_num)
  exact extractCore_high _ _ _ (by linarith) (by linarith) (by linarith)
    (by norm_num)

/-- At noise 90 the extractor returns only the black cluster. -/
theorem extract90 : extractDominantClusters 90 false 0 rasterC8 =
    [⟨31, (0, 0, 0)⟩] := by
  have hl := d90_gt
  have hu := d90_lt
  have hp : _noise_profile 90 =
      (21, (22 - ((90 : ℝ) / 100) ^ ((1.15 : ℝ)) * 18) *
        (22 - ((90 : ℝ) / 100) ^ ((1.15 : ℝ)) * 18) * 3,
        0.24 - ((90 : ℝ) / 100) ^ ((1.15 : ℝ)) * 0.232, 0) := by
    apply profile_components 90 (by norm_num) (by norm_num) _ rfl 21
    · push_cast; linarith
    · push_cast; linarith
    · linarith
    · linarith
    · linarith
  have hm : _normalize_max_colors 0 = 0 := by
    norm_num [_normalize_max_colors]
  simp only [extractDominantClusters, hp, hm, lt_self_iff_false, if_false,
    Int.toNat_zero]
  have hs1 : (6.0502 : ℝ) ≤ 22 - ((90 : ℝ) / 100) ^ ((1.15 : ℝ)) * 18 := by
    linarith
  have hs2 : 22 - ((90 : ℝ) / 100) ^ ((1.15 : ℝ)) * 18 ≤ 6.0574 := by
    linarith
  have hlo := mul_le_mul hs1 hs1 (by norm_num) (by linarith)
  have hhi := mul_le_mul hs2 hs2 (by linarith) (by norm_num)
  exact extractCore_low _ _ _ (by linarith) (by linarith) (by linarith)
    (by linarith) (by norm_num)

end Suggester

/-- C8 counterexample: the returned cluster count is not weakly
increasing in the noise parameter.  On a fixed 11×3 opaque raster (31
black pixels, one `(40,0,0)` and one `(51,0,0)` pixel) with
`ignore_background = False` and `max_colors = 0`, raising the noise from
86 to 90 drops the count from 2 to 1: at noise 86 the merge threshold
(≈ 141.4) merges the two reddish bins (squared distance 121) into one
cluster whose pooled ratio 2/33 passes the min-ratio filter (≈ 0.0450),
while at noise 90 the threshold (≈ 109.9) no longer merges them and each
singleton ratio 1/33 falls below the min ratio (≈ 0.0345), leaving only
the black cluster; neither count is clipped by the cap (20 resp. 21). -/
theorem C8_counterexample :
    (86 : ℝ) ≤ 90 ∧
    (Suggester.extractDominantClusters 86 false 0 Suggester.rasterC8).length
      = 2 ∧
    (Suggester.extractDominantClusters 90 false 0 Suggester.rasterC8).length
      = 1 := by
  refine ⟨by norm_num, ?_, ?_⟩
  · rw [Suggester.extract86]
    rfl
  · rw [Suggester.extract90]
    rfl

/-- C8: the noise-profile half of the claim holds: at `noise = 100` the
auto max-colors cap computed by `_noise_profile` equals
`int(round(2 + 1^1.15 * 22)) = 24`.  (The monotonicity half of the claim
is refuted by the counterexample above: the cluster count can strictly
drop when noise increases, even far below the cap.) -/
theorem C8_auto_cap_at_noise_100 : (Suggester._noise_profile 100).1 = 24 := by
  rw [Suggester.noise_profile_eval 100 (by norm_num) (by norm_num)]
  have h1 : ((100 : ℝ) / 100) = 1 := by norm_num
  rw [h1, Real.one_rpow]
  show pyRound (2 + 1 * 22) = 24
  have h2 : ((2 : ℝ) + 1 * 22) = ((24 : ℤ) : ℝ) := by norm_num
  rw [h2, pyRound_intCast]

end PantoneViewer
